import Mathlib

/-!
Verification of the prediction data-orchestration layer of the
verda-yield-optimizer dashboard.

The TypeScript sources embedded here are
  - `src/lib/aiDataService.ts` (TTL cache, scenario builder, batch
    orchestrator, derived-view transformers),
  - `src/lib/mockData.ts` (static fallback generators),
  - `src/lib/api.ts` (the remote prediction client's data types),
  - `src/lib/predictionPresets.ts` (validation rules and form validation),
  - `src/contexts/AIPredictionContext.tsx` (the prediction store), and
  - the prediction form in `src/components/dashboard` (submit gating).

Modelling conventions:
  - JavaScript numbers are modelled as exact rationals `ℚ`.
  - `Math.round x` is `⌊x + 1/2⌋` (`jsRound`), which agrees with the
    JavaScript semantics for all inputs, including negative halves.
  - `Math.random()` draws are taken from an explicit stream
    `rngStream : ℕ → ℚ`; theorems assume every draw lies in `[0, 1)`.
  - `Math.sin ((i / 30) * π)` is transcendental, so its value at each day
    offset is an explicit parameter `sinv : ℕ → ℚ`; theorems assume only
    `|sinv i| ≤ 1`.
  - `Date.now()` / `new Date()` are an explicit clock `now : ℚ` and a day
    index `today : ℕ` in the world state; dates in forecast rows are day
    numbers rather than ISO strings.
  - The remote prediction client is an oracle
    `client : ℕ → PredictionInput → Except String PredictionResult`
    indexed by the global request number, so arbitrary per-request
    failure patterns can be expressed.
  - The single-threaded `async`/`await` control flow is linearised: every
    effectful operation is a function `World → α × World`, and `await`ed
    calls are sequenced in the order the source creates the promises.
  - The `unknown`-typed cache is a sum `CacheVal` of the five view types
    plus raw prediction lists; the TypeScript `as T` cast on a cache read
    is a projection that is only ever applied to the matching constructor.
-/

attribute [local semireducible] Rat.add Rat.mul Rat.sub Rat.inv

namespace Verda

/-- JavaScript `Math.round`: round half towards positive infinity,
`⌊x + 1/2⌋`.  Stated via the executable `Rat.floor` so that concrete
runs of the model reduce. -/
def jsRound (x : ℚ) : ℤ := Rat.floor (x + 1/2)

/-- `jsRound` is the mathematical floor of `x + 1/2`. -/
theorem jsRound_eq_floor (x : ℚ) : jsRound x = ⌊x + 1/2⌋ := by
  rw [jsRound, Rat.floor_def', Rat.floor_def]

/-- `Math.round (x * 10) / 10` — rounding to one decimal, as used throughout
the data service. -/
def round1 (x : ℚ) : ℚ := (jsRound (x * 10) : ℚ) / 10

/-- `Math.round (x * 100) / 100` — rounding to two decimals. -/
def round2 (x : ℚ) : ℚ := (jsRound (x * 100) : ℚ) / 100

/-- The fixed-shape numeric payload sent to the prediction service
(`PredictionInput` in `src/lib/api.ts`). -/
structure PredictionInput where
  ffb : ℚ
  cpo : ℚ
  moisture : ℚ
  cv : ℚ
  eff : ℚ
  oil_price : ℚ
  demand_bio : ℚ
  carbon_tax : ℚ
  demand_feed : ℚ
  protein_score : ℚ
  supply_factor : ℚ
  compost_base : ℚ
  nutrient_score : ℚ
  deriving DecidableEq, Repr

/-- The three per-ton market prices inside a prediction result. -/
structure Prices where
  biofuel : ℚ
  feed : ℚ
  compost : ℚ
  deriving DecidableEq, Repr

/-- The prediction service's response (`PredictionResult` in
`src/lib/api.ts`). -/
structure PredictionResult where
  biomass : ℚ
  prices : Prices
  optimal_allocation : ℤ
  allocation_description : String
  deriving DecidableEq, Repr

/-- `Partial<PredictionInput>` — the override argument of the scenario
builder; absent fields fall back to the base scenario's defaults. -/
structure PartialInput where
  ffb : Option ℚ := none
  cpo : Option ℚ := none
  moisture : Option ℚ := none
  cv : Option ℚ := none
  eff : Option ℚ := none
  oil_price : Option ℚ := none
  demand_bio : Option ℚ := none
  carbon_tax : Option ℚ := none
  demand_feed : Option ℚ := none
  protein_score : Option ℚ := none
  supply_factor : Option ℚ := none
  compost_base : Option ℚ := none
  nutrient_score : Option ℚ := none
  deriving DecidableEq, Repr

/-- The empty override `{}`, used by the batch orchestrator. -/
def PartialInput.empty : PartialInput := {}

/-- One row of the 30-day yield forecast view.  The `date` field of the
source (an ISO day string derived from `baseDate + i`) is modelled as the
day number itself. -/
structure YieldForecast where
  date : ℕ
  efb : ℚ
  fiber : ℚ
  shell : ℚ
  pome : ℚ
  deriving DecidableEq, Repr

/-- One row of the 30-day price forecast view. -/
structure PriceForecast where
  date : ℕ
  biofuel : ℚ
  animalFeed : ℚ
  compost : ℚ
  carbonCredit : ℚ
  deriving DecidableEq, Repr

/-- One category row of the allocation breakdown view. -/
structure AllocationData where
  category : String
  value : ℚ
  revenue : ℚ
  emissions : ℚ
  color : String
  deriving DecidableEq, Repr

/-- One optimization scenario of the scenario-comparison view. -/
structure OptimizationScenario where
  name : String
  revenue : ℚ
  emissions : ℚ
  allocation : List AllocationData
  deriving DecidableEq, Repr

/-- The KPI summary view. -/
structure KPISummary where
  totalYield : ℚ
  yieldChange : ℚ
  totalRevenue : ℚ
  revenueChange : ℚ
  emissionsReduced : ℚ
  emissionsChange : ℚ
  efficiency : ℚ
  efficiencyChange : ℚ
  deriving DecidableEq, Repr

/-- The sum of all value types ever stored in the `unknown`-typed
prediction cache. -/
inductive CacheVal where
  | predictions (ps : List PredictionResult)
  | yieldF (rows : List YieldForecast)
  | priceF (rows : List PriceForecast)
  | alloc (rows : List AllocationData)
  | scen (rows : List OptimizationScenario)
  | kpi (s : KPISummary)
  deriving DecidableEq, Repr

/-- A cache entry: the stored value plus the `Date.now()` at which it was
written (`CacheEntry<T>` in `aiDataService.ts`). -/
structure CacheEntry where
  data : CacheVal
  timestamp : ℚ
  deriving DecidableEq, Repr

/-- The configuration surface read by the data service:
`VITE_USE_REAL_AI === 'true'`, a non-empty `VITE_API_URL`, and the cache
TTL in milliseconds. -/
structure Config where
  USE_REAL_API : Bool
  API_AVAILABLE : Bool
  CACHE_TTL : ℚ
  deriving DecidableEq, Repr

/-- Observable interactions with the orchestration layer, recorded so
that theorems can speak about which remote calls a computation makes.
`batchCall n` marks the batch orchestrator starting an uncached fetch of
`n` scenarios; `remoteCall i` is one request of the remote prediction
client. -/
inductive Event where
  | batchCall (count : ℕ)
  | remoteCall (input : PredictionInput)
  deriving DecidableEq, Repr

/-- The world threaded through every effectful operation: the module-level
cache, the clock, the random stream with its cursor, the tabulated sine
values, the remote client oracle with its request counter, and the event
log. -/
@[ext]
structure World where
  config : Config
  cache : List (String × CacheEntry)
  now : ℚ
  today : ℕ
  rngStream : ℕ → ℚ
  rngIdx : ℕ
  sinv : ℕ → ℚ
  client : ℕ → PredictionInput → Except String PredictionResult
  callIdx : ℕ
  events : List Event

/-- Every value of the random stream lies in `[0, 1)`, the contract of
`Math.random()`. -/
def RngOk (w : World) : Prop := ∀ n, 0 ≤ w.rngStream n ∧ w.rngStream n < 1

/-- The tabulated sine values are genuine sine values in `[-1, 1]`. -/
def SinOk (w : World) : Prop := ∀ n, |w.sinv n| ≤ 1

/-- One `Math.random()` draw. -/
def nextRand (w : World) : ℚ × World :=
  (w.rngStream w.rngIdx, { w with rngIdx := w.rngIdx + 1 })

/-- `cache.set(key, data)`: store with `timestamp = Date.now()`,
overwriting any prior entry for the key (`Map.prototype.set`). -/
def cacheSet (key : String) (v : CacheVal) (w : World) : World :=
  { w with cache :=
      (key, ⟨v, w.now⟩) :: w.cache.filter (fun e => ¬ (e.1 = key)) }

/-- `cache.get(key)`: return the entry's data unless its age exceeds the
TTL, in which case delete the entry (lazy eviction) and return `null`. -/
def cacheGet (key : String) (w : World) : Option CacheVal × World :=
  match w.cache.find? (fun e => e.1 == key) with
  | none => (none, w)
  | some e =>
      if w.now - e.2.timestamp > w.config.CACHE_TTL then
        (none, { w with cache := w.cache.filter (fun e => ¬ (e.1 = key)) })
      else
        (some e.2.data, w)

/-- `cache.clear()`. -/
def cacheClear (w : World) : World := { w with cache := [] }

/-- One request of the remote prediction client (`getPrediction` in
`src/lib/api.ts`): the oracle's answer for the current request number,
recorded in the event log. -/
def getPrediction (input : PredictionInput) (w : World) :
    Except String PredictionResult × World :=
  (w.client w.callIdx input,
   { w with callIdx := w.callIdx + 1,
            events := w.events ++ [Event.remoteCall input] })

/-- The base scenario of `createInputScenario`: typical defaults merged
with the partial override (`{ ...base, ...baseInput }` merges the
override over the defaults; `Partial` fields that are absent keep the
default). -/
def mergeBase (over : PartialInput) : PredictionInput where
  ffb := over.ffb.getD 120
  cpo := over.cpo.getD 25
  moisture := over.moisture.getD 40
  cv := over.cv.getD 17
  eff := over.eff.getD (85/100)
  oil_price := over.oil_price.getD 95
  demand_bio := over.demand_bio.getD (7/10)
  carbon_tax := over.carbon_tax.getD 12
  demand_feed := over.demand_feed.getD (55/100)
  protein_score := over.protein_score.getD (9/10)
  supply_factor := over.supply_factor.getD (11/10)
  compost_base := over.compost_base.getD 30
  nutrient_score := over.nutrient_score.getD 1

/-- `createInputScenario(baseInput, dayOffset)`: seasonal factor
`1 + 0.15 * sin((dayOffset / 30) * π)` (the sine value is `sinv dayOffset`),
a random throughput multiplier in `[0.95, 1.05)`, a random oil-price
perturbation in `[-7.5, 7.5)`, and demand perturbations in `[-0.1, 0.1)`
clamped by `Math.max`/`Math.min`.  Draw order follows the source: the
throughput multiplier first, then one draw per perturbed field in object
literal order. -/
def createInputScenario (over : PartialInput) (dayOffset : ℕ)
    (w : World) : PredictionInput × World :=
  let base := mergeBase over
  let seasonalFactor := 1 + (15/100) * w.sinv dayOffset
  let (r1, w) := nextRand w
  let randomFactor := 95/100 + r1 * (1/10)
  let (r2, w) := nextRand w
  let (r3, w) := nextRand w
  let (r4, w) := nextRand w
  ({ base with
      ffb := round1 (base.ffb * seasonalFactor * randomFactor)
      oil_price := round2 (base.oil_price + (r2 - 1/2) * 15)
      demand_bio := max (1/2) (min (9/10) (base.demand_bio + (r3 - 1/2) * (2/10)))
      demand_feed := max (4/10) (min (8/10) (base.demand_feed + (r4 - 1/2) * (2/10))) },
   w)

/-- The randomized fallback `PredictionResult` substituted for a failed
request inside `getAIPredictions` (the `.catch` handler). -/
def fallbackPrediction (w : World) : PredictionResult × World :=
  let (r1, w) := nextRand w
  let (r2, w) := nextRand w
  let (r3, w) := nextRand w
  let (r4, w) := nextRand w
  ({ biomass := 25 + r1 * 10
     prices := { biofuel := 85 + r2 * 20, feed := 50 + r3 * 15, compost := 30 + r4 * 10 }
     optimal_allocation := 1
     allocation_description := "Balanced" },
   w)

/-- Sequential state-passing `map`, the linearisation of the `await`ed
call sequences of the source. -/
def stMap (f : α → World → β × World) : List α → World → List β × World
  | [], w => ([], w)
  | x :: xs, w =>
      let (y, w) := f x w
      let (ys, w) := stMap f xs w
      (y :: ys, w)

/-- Split a list into the batches of five used by the batch orchestrator
(`inputScenarios.slice(i, i + batchSize)` for `i = 0, 5, 10, ...`). -/
def chunk5 : List α → List (List α)
  | [] => []
  | [a] => [[a]]
  | [a, b] => [[a, b]]
  | [a, b, c] => [[a, b, c]]
  | [a, b, c, d] => [[a, b, c, d]]
  | a :: b :: c :: d :: e :: rest => [a, b, c, d, e] :: chunk5 rest

/-- One item of a batch: the remote request, with failure replaced by the
randomized fallback (`getPrediction(input).catch(...)`). -/
def fetchOne (input : PredictionInput) (w : World) : PredictionResult × World :=
  match getPrediction input w with
  | (Except.ok r, w) => (r, w)
  | (Except.error _, w) => fallbackPrediction w

/-- Process the batches sequentially, concatenating per-batch results
(the `for` loop over batches with `results.push(...batchResults)`). -/
def fetchBatches (batches : List (List PredictionInput)) (w : World) :
    List PredictionResult × World :=
  match batches with
  | [] => ([], w)
  | b :: bs =>
      let (ys, w) := stMap fetchOne b w
      let (rest, w) := fetchBatches bs w
      (ys ++ rest, w)

/-- The cache key of the batch orchestrator, a function of the scenario
count only. -/
def predictionsCacheKey (count : ℕ) : String := "predictions_" ++ toString count

/-- Build the input scenarios for offsets `0 .. count-1`
(`Array.from({length: count}, (_, i) => createInputScenario({}, i))`). -/
def buildScenarios (count : ℕ) (w : World) : List PredictionInput × World :=
  stMap (fun i w => createInputScenario PartialInput.empty i w) (List.range count) w

/-- `getAIPredictions(count)`: return the cached list if present, else
record the batch fetch, build the scenarios, fetch them in batches of
five with per-item fallback, cache and return the results.  The source's
outer `try`/`catch` rethrows, but no statement in the body can throw once
per-item failures are absorbed, so the model is total. -/
def getAIPredictions (count : ℕ) (w : World) : List PredictionResult × World :=
  let (cached, w) := cacheGet (predictionsCacheKey count) w
  match cached with
  | some (CacheVal.predictions ps) => (ps, w)
  | some _ => ([], w)
  | none =>
      let w := { w with events := w.events ++ [Event.batchCall count] }
      let (scenarios, w) := buildScenarios count w
      let (results, w) := fetchBatches (chunk5 scenarios) w
      let w := cacheSet (predictionsCacheKey count) (CacheVal.predictions results) w
      (results, w)

/-- One row of the mock yield forecast (`generateYieldForecast` in
`mockData.ts`): seasonal factor `1 + 0.2 * sin((i / 30) * π)` — the same
angle as the scenario builder, hence the same `sinv` table — and one
random draw per row. -/
def mockYieldRow (i : ℕ) (w : World) : YieldForecast × World :=
  let seasonalFactor := 1 + (2/10) * w.sinv i
  let (r, w) := nextRand w
  let randomFactor := 9/10 + r * (2/10)
  ({ date := w.today + i
     efb := (jsRound (180 * seasonalFactor * randomFactor) : ℚ)
     pome := (jsRound (450 * seasonalFactor * randomFactor) : ℚ)
     fiber := (jsRound (120 * seasonalFactor * randomFactor) : ℚ)
     shell := (jsRound (60 * seasonalFactor * randomFactor) : ℚ) },
   w)

/-- `generateYieldForecast()`: thirty mock rows. -/
def generateYieldForecast (w : World) : List YieldForecast × World :=
  stMap mockYieldRow (List.range 30) w

/-- One step of the mock price random walk (`generatePriceForecast`): the
four prices are updated first, then the row is pushed from the clamped
updated values. -/
def mockPriceRow (st : ℚ × ℚ × ℚ × ℚ) (i : ℕ) (w : World) :
    PriceForecast × (ℚ × ℚ × ℚ × ℚ) × World :=
  let (r1, w) := nextRand w
  let (r2, w) := nextRand w
  let (r3, w) := nextRand w
  let (r4, w) := nextRand w
  let biofuelPrice := st.1 + (r1 - 48/100) * 20
  let feedPrice := st.2.1 + (r2 - 48/100) * 8
  let compostPrice := st.2.2.1 + (r3 - 48/100) * 5
  let carbonPrice := st.2.2.2 + (r4 - 45/100) * 2
  ({ date := w.today + i
     biofuel := (jsRound (max 700 (min 1000 biofuelPrice)) : ℚ)
     animalFeed := (jsRound (max 250 (min 400 feedPrice)) : ℚ)
     compost := (jsRound (max 100 (min 200 compostPrice)) : ℚ)
     carbonCredit := round1 (max 30 (min 70 carbonPrice)) },
   (biofuelPrice, feedPrice, compostPrice, carbonPrice), w)

/-- The walk over a list of day indices, threading the price state. -/
def mockPriceRows (st : ℚ × ℚ × ℚ × ℚ) : List ℕ → World → List PriceForecast × World
  | [], w => ([], w)
  | i :: is, w =>
      let (row, st, w) := mockPriceRow st i w
      let (rows, w) := mockPriceRows st is w
      (row :: rows, w)

/-- `generatePriceForecast()`: a 30-day random walk from the initial
prices 850 / 320 / 150 / 45. -/
def generatePriceForecast (w : World) : List PriceForecast × World :=
  mockPriceRows (850, 320, 150, 45) (List.range 30) w

/-- `getCurrentAllocation()`: the constant mock allocation breakdown. -/
def getCurrentAllocation : List AllocationData :=
  [ { category := "Biofuel", value := 35, revenue := 42500, emissions := -850,
      color := "hsl(var(--chart-1))" },
    { category := "Animal Feed", value := 28, revenue := 18200, emissions := -120,
      color := "hsl(var(--chart-2))" },
    { category := "Compost", value := 22, revenue := 8800, emissions := -450,
      color := "hsl(var(--chart-3))" },
    { category := "Carbon Credits", value := 15, revenue := 12750, emissions := -680,
      color := "hsl(var(--chart-4))" } ]

/-- `getOptimizationScenarios()`: the constant mock scenario set. -/
def getOptimizationScenarios : List OptimizationScenario :=
  [ { name := "Max Revenue", revenue := 95000, emissions := -1200,
      allocation :=
        [ { category := "Biofuel", value := 55, revenue := 55000, emissions := -600,
            color := "hsl(var(--chart-1))" },
          { category := "Animal Feed", value := 25, revenue := 25000, emissions := -150,
            color := "hsl(var(--chart-2))" },
          { category := "Compost", value := 12, revenue := 8000, emissions := -250,
            color := "hsl(var(--chart-3))" },
          { category := "Carbon Credits", value := 8, revenue := 7000, emissions := -200,
            color := "hsl(var(--chart-4))" } ] },
    { name := "Min Emissions", revenue := 72000, emissions := -2800,
      allocation :=
        [ { category := "Biofuel", value := 20, revenue := 20000, emissions := -1200,
            color := "hsl(var(--chart-1))" },
          { category := "Animal Feed", value := 15, revenue := 12000, emissions := -200,
            color := "hsl(var(--chart-2))" },
          { category := "Compost", value := 35, revenue := 15000, emissions := -800,
            color := "hsl(var(--chart-3))" },
          { category := "Carbon Credits", value := 30, revenue := 25000, emissions := -600,
            color := "hsl(var(--chart-4))" } ] },
    { name := "Balanced", revenue := 82250, emissions := -2100,
      allocation :=
        [ { category := "Biofuel", value := 35, revenue := 42500, emissions := -850,
            color := "hsl(var(--chart-1))" },
          { category := "Animal Feed", value := 28, revenue := 18200, emissions := -120,
            color := "hsl(var(--chart-2))" },
          { category := "Compost", value := 22, revenue := 8800, emissions := -450,
            color := "hsl(var(--chart-3))" },
          { category := "Carbon Credits", value := 15, revenue := 12750, emissions := -680,
            color := "hsl(var(--chart-4))" } ] } ]

/-- `getKPISummary()`: the constant mock KPI summary. -/
def getKPISummary : KPISummary :=
  { totalYield := 820, yieldChange := 125/10, totalRevenue := 82250,
    revenueChange := 83/10, emissionsReduced := 2100, emissionsChange := 152/10,
    efficiency := 88, efficiencyChange := 21/10 }

/-- The projection applied to a cache hit of the yield-forecast key
(the TypeScript `as T` cast; only the matching constructor ever occurs). -/
def CacheVal.asYieldF : CacheVal → List YieldForecast
  | CacheVal.yieldF rows => rows
  | _ => []

/-- Cache-hit projection for the price-forecast key. -/
def CacheVal.asPriceF : CacheVal → List PriceForecast
  | CacheVal.priceF rows => rows
  | _ => []

/-- Cache-hit projection for the allocation key. -/
def CacheVal.asAlloc : CacheVal → List AllocationData
  | CacheVal.alloc rows => rows
  | _ => []

/-- Cache-hit projection for the optimization-scenarios key. -/
def CacheVal.asScen : CacheVal → List OptimizationScenario
  | CacheVal.scen rows => rows
  | _ => []

/-- Cache-hit projection for the KPI key; the catch-all value is
unreachable because only `CacheVal.kpi` is ever stored under it. -/
def CacheVal.asKPI : CacheVal → KPISummary
  | CacheVal.kpi s => s
  | _ => { totalYield := 0, yieldChange := 0, totalRevenue := 0, revenueChange := 0,
           emissionsReduced := 0, emissionsChange := 0, efficiency := 0,
           efficiencyChange := 0 }

/-- The `predictions.map((prediction, i) => ...)` body of
`generateAIYieldForecast`: split the biomass into the fixed waste-stream
shares 48% / 30% / 13% / 9%, rounded to one decimal. -/
def yieldFromPreds (today : ℕ) (preds : List PredictionResult) : List YieldForecast :=
  preds.mapIdx (fun i p =>
    { date := today + i
      efb := round1 (p.biomass * (48/100))
      fiber := round1 (p.biomass * (30/100))
      shell := round1 (p.biomass * (13/100))
      pome := round1 (p.biomass * (9/100)) })

/-- One row of `generateAIPriceForecast`'s mapping: the three predicted
prices rounded to two decimals plus a random carbon-credit base in
`[40, 60)` rounded to one decimal. -/
def priceRowFromPred (today : ℕ) (ip : ℕ × PredictionResult) (w : World) :
    PriceForecast × World :=
  let (r, w) := nextRand w
  let carbonCreditBase := 40 + r * 20
  ({ date := today + ip.1
     biofuel := round2 ip.2.prices.biofuel
     animalFeed := round2 ip.2.prices.feed
     compost := round2 ip.2.prices.compost
     carbonCredit := round1 carbonCreditBase },
   w)

/-- The `predictions.map((prediction, i) => ...)` body of
`generateAIPriceForecast`. -/
def priceFromPreds (preds : List PredictionResult) (w : World) :
    List PriceForecast × World :=
  stMap (priceRowFromPred w.today) preds.enum w

/-- The percentage weights of one allocation class. -/
structure AllocWeights where
  biofuel : ℚ
  feed : ℚ
  compost : ℚ
  carbon : ℚ
  deriving DecidableEq, Repr

/-- The `allocationMap` lookup of `getAIAllocationData`, including the
`|| allocationMap[1]` default for a class outside `{0, 1, 2}` (every
stored value is a truthy object, so `||` fires exactly on absent keys). -/
def allocationMap (k : ℤ) : AllocWeights :=
  if k = 0 then ⟨55, 25, 12, 8⟩
  else if k = 1 then ⟨35, 28, 22, 15⟩
  else if k = 2 then ⟨20, 15, 35, 30⟩
  else ⟨35, 28, 22, 15⟩

/-- The allocation-breakdown rows computed by `getAIAllocationData` from
one prediction: per category, `revenue = Math.round(price × biomass ×
weight/100)` (carbon credits use the fixed price 40) and `emissions =
-Math.round(biomass × weight/100 × factor)` with factors 0.8 / 0.1 /
0.4 / 0.6. -/
def allocationFromPrediction (p : PredictionResult) : List AllocationData :=
  let allocation := allocationMap p.optimal_allocation
  let biomass := p.biomass
  [ { category := "Biofuel", value := allocation.biofuel
      revenue := (jsRound (p.prices.biofuel * biomass * (allocation.biofuel / 100)) : ℚ)
      emissions := -(jsRound (biomass * (allocation.biofuel / 100) * (8/10)) : ℚ)
      color := "hsl(var(--chart-1))" },
    { category := "Animal Feed", value := allocation.feed
      revenue := (jsRound (p.prices.feed * biomass * (allocation.feed / 100)) : ℚ)
      emissions := -(jsRound (biomass * (allocation.feed / 100) * (1/10)) : ℚ)
      color := "hsl(var(--chart-2))" },
    { category := "Compost", value := allocation.compost
      revenue := (jsRound (p.prices.compost * biomass * (allocation.compost / 100)) : ℚ)
      emissions := -(jsRound (biomass * (allocation.compost / 100) * (4/10)) : ℚ)
      color := "hsl(var(--chart-3))" },
    { category := "Carbon Credits", value := allocation.carbon
      revenue := (jsRound (40 * biomass * (allocation.carbon / 100)) : ℚ)
      emissions := -(jsRound (biomass * (allocation.carbon / 100) * (6/10)) : ℚ)
      color := "hsl(var(--chart-4))" } ]

/-- The KPI computation of `getAIKPISummary` from the fetched
predictions.  `none` corresponds to the `TypeError` the source would
raise on an empty array (indexing `undefined`), which its `catch`
converts to the mock fallback.  `previous` is `predictions[length - 2] ||
latest`; with one element, the JavaScript index `-1` yields `undefined`
and hence `latest`, and the truncated subtraction here also selects the
single element, which is `latest`.  A division by a zero biomass is `0`
here where JavaScript would produce a non-finite number; no claim
touches that case. -/
def kpiFromPreds (preds : List PredictionResult) : Option KPISummary :=
  match preds.getLast? with
  | none => none
  | some latest =>
      let previous := (preds.get? (preds.length - 2)).getD latest
      let totalYield := round1 latest.biomass
      let yieldChange := (latest.biomass - previous.biomass) / previous.biomass * 100
      let revenue : ℚ :=
        (jsRound (latest.prices.biofuel * latest.biomass * (35/100) +
                  latest.prices.feed * latest.biomass * (28/100) +
                  latest.prices.compost * latest.biomass * (22/100) +
                  40 * latest.biomass * (15/100)) : ℚ)
      let prevRevenue : ℚ :=
        (jsRound (previous.prices.biofuel * previous.biomass * (35/100) +
                  previous.prices.feed * previous.biomass * (28/100) +
                  previous.prices.compost * previous.biomass * (22/100) +
                  40 * previous.biomass * (15/100)) : ℚ)
      let revenueChange := if prevRevenue ≠ 0 then (revenue - prevRevenue) / prevRevenue * 100 else 0
      let emissionsReduced : ℚ := (jsRound (latest.biomass * (5/10)) : ℚ)
      let prevEmissions : ℚ := (jsRound (previous.biomass * (5/10)) : ℚ)
      let emissionsChange := if prevEmissions ≠ 0 then (emissionsReduced - prevEmissions) / prevEmissions * 100 else 0
      some { totalYield := totalYield
             yieldChange := round1 yieldChange
             totalRevenue := revenue
             revenueChange := round1 revenueChange
             emissionsReduced := emissionsReduced
             emissionsChange := round1 emissionsChange
             efficiency := 88
             efficiencyChange := 21/10 }

/-- Is the live path enabled?  The source short-circuits to mock data
when `!USE_REAL_API || !API_AVAILABLE`. -/
def liveMode (w : World) : Bool := w.config.USE_REAL_API && w.config.API_AVAILABLE

/-- `generateAIYieldForecast()`: cache, mock escape hatch, then the live
path.  The source's `catch` falls back to the mock generator, but the
modelled body is total (every failure is absorbed inside
`getAIPredictions`), so that branch is dead here as in the linearised
source. -/
def generateAIYieldForecast (w : World) : List YieldForecast × World :=
  let (cached, w) := cacheGet "yield_forecast" w
  match cached with
  | some v => (v.asYieldF, w)
  | none =>
      if liveMode w then
        let (predictions, w) := getAIPredictions 30 w
        let forecast := yieldFromPreds w.today predictions
        (forecast, cacheSet "yield_forecast" (CacheVal.yieldF forecast) w)
      else
        let (mockData, w) := generateYieldForecast w
        (mockData, cacheSet "yield_forecast" (CacheVal.yieldF mockData) w)

/-- `generateAIPriceForecast()`. -/
def generateAIPriceForecast (w : World) : List PriceForecast × World :=
  let (cached, w) := cacheGet "price_forecast" w
  match cached with
  | some v => (v.asPriceF, w)
  | none =>
      if liveMode w then
        let (predictions, w) := getAIPredictions 30 w
        let (forecast, w) := priceFromPreds predictions w
        (forecast, cacheSet "price_forecast" (CacheVal.priceF forecast) w)
      else
        let (mockData, w) := generatePriceForecast w
        (mockData, cacheSet "price_forecast" (CacheVal.priceF mockData) w)

/-- `getAIAllocationData()`: one scenario is fetched; the empty-list
branch models the `TypeError` on `predictions[0]` that the source's
`catch` converts into the mock fallback. -/
def getAIAllocationData (w : World) : List AllocationData × World :=
  let (cached, w) := cacheGet "allocation_data" w
  match cached with
  | some v => (v.asAlloc, w)
  | none =>
      if liveMode w then
        let (predictions, w) := getAIPredictions 1 w
        match predictions with
        | [] =>
            (getCurrentAllocation,
             cacheSet "allocation_data" (CacheVal.alloc getCurrentAllocation) w)
        | p :: _ =>
            let rows := allocationFromPrediction p
            (rows, cacheSet "allocation_data" (CacheVal.alloc rows) w)
      else
        (getCurrentAllocation,
         cacheSet "allocation_data" (CacheVal.alloc getCurrentAllocation) w)

/-- `getAIKPISummary()`: five scenarios for the trend; the `none` branch
of `kpiFromPreds` models the `TypeError` on an empty fetch that the
source's `catch` converts into the mock fallback. -/
def getAIKPISummary (w : World) : KPISummary × World :=
  let (cached, w) := cacheGet "kpi_summary" w
  match cached with
  | some v => (v.asKPI, w)
  | none =>
      if liveMode w then
        let (predictions, w) := getAIPredictions 5 w
        match kpiFromPreds predictions with
        | none =>
            (getKPISummary, cacheSet "kpi_summary" (CacheVal.kpi getKPISummary) w)
        | some summary =>
            (summary, cacheSet "kpi_summary" (CacheVal.kpi summary) w)
      else
        (getKPISummary, cacheSet "kpi_summary" (CacheVal.kpi getKPISummary) w)

/-- The max-revenue market preset of `getAIOptimizationScenarios`. -/
def maxRevInput : PartialInput :=
  { oil_price := some 110, demand_bio := some (85/100), carbon_tax := some 8 }

/-- The balanced market preset. -/
def balancedInput : PartialInput :=
  { oil_price := some 95, demand_bio := some (7/10), carbon_tax := some 12 }

/-- The sustainability market preset. -/
def sustainInput : PartialInput :=
  { oil_price := some 85, demand_bio := some (55/100), carbon_tax := some 18 }

/-- The four allocation rows of one optimization scenario, with the
percentage weights `vb vf vc vk` (the source writes the fractions
`0.55` etc. literally; `vb / 100` is the same rational). -/
def scenarioAllocation (p : PredictionResult) (vb vf vc vk : ℚ) : List AllocationData :=
  [ { category := "Biofuel", value := vb
      revenue := (jsRound (p.prices.biofuel * p.biomass * (vb/100)) : ℚ)
      emissions := -(jsRound (p.biomass * (vb/100) * (8/10)) : ℚ)
      color := "hsl(var(--chart-1))" },
    { category := "Animal Feed", value := vf
      revenue := (jsRound (p.prices.feed * p.biomass * (vf/100)) : ℚ)
      emissions := -(jsRound (p.biomass * (vf/100) * (1/10)) : ℚ)
      color := "hsl(var(--chart-2))" },
    { category := "Compost", value := vc
      revenue := (jsRound (p.prices.compost * p.biomass * (vc/100)) : ℚ)
      emissions := -(jsRound (p.biomass * (vc/100) * (4/10)) : ℚ)
      color := "hsl(var(--chart-3))" },
    { category := "Carbon Credits", value := vk
      revenue := (jsRound (40 * p.biomass * (vk/100)) : ℚ)
      emissions := -(jsRound (p.biomass * (vk/100) * (6/10)) : ℚ)
      color := "hsl(var(--chart-4))" } ]

/-- Aggregate one scenario: revenue and emissions are the sums over the
allocation rows (`reduce((sum, item) => sum + item.revenue, 0)`). -/
def mkScenario (name : String) (rows : List AllocationData) : OptimizationScenario :=
  { name := name
    revenue := (rows.map (fun r => r.revenue)).sum
    emissions := (rows.map (fun r => r.emissions)).sum
    allocation := rows }

/-- `getAIOptimizationScenarios()`: three direct remote-client requests
(not a batch fetch) built from three distinct market presets, awaited
sequentially; any rejection aborts to the `catch`, which caches and
returns the mock scenario set. -/
def getAIOptimizationScenarios (w : World) : List OptimizationScenario × World :=
  let (cached, w) := cacheGet "optimization_scenarios" w
  match cached with
  | some v => (v.asScen, w)
  | none =>
      if liveMode w then
        let (in1, w) := createInputScenario maxRevInput 0 w
        let (res1, w) := getPrediction in1 w
        match res1 with
        | Except.error _ =>
            (getOptimizationScenarios,
             cacheSet "optimization_scenarios" (CacheVal.scen getOptimizationScenarios) w)
        | Except.ok maxRevPred =>
            let s1 := mkScenario "Max Revenue" (scenarioAllocation maxRevPred 55 25 12 8)
            let (in2, w) := createInputScenario balancedInput 0 w
            let (res2, w) := getPrediction in2 w
            match res2 with
            | Except.error _ =>
                (getOptimizationScenarios,
                 cacheSet "optimization_scenarios" (CacheVal.scen getOptimizationScenarios) w)
            | Except.ok balancedPred =>
                let s2 := mkScenario "Balanced" (scenarioAllocation balancedPred 35 28 22 15)
                let (in3, w) := createInputScenario sustainInput 0 w
                let (res3, w) := getPrediction in3 w
                match res3 with
                | Except.error _ =>
                    (getOptimizationScenarios,
                     cacheSet "optimization_scenarios" (CacheVal.scen getOptimizationScenarios) w)
                | Except.ok sustainPred =>
                    let s3 := mkScenario "Min Emissions" (scenarioAllocation sustainPred 20 15 35 30)
                    let scenarios := [s1, s2, s3]
                    (scenarios,
                     cacheSet "optimization_scenarios" (CacheVal.scen scenarios) w)
      else
        (getOptimizationScenarios,
         cacheSet "optimization_scenarios" (CacheVal.scen getOptimizationScenarios) w)

/-- `clearCache()` of the data service. -/
def clearCache (w : World) : World := cacheClear w

/-- The prediction store's state (`AIPredictionContext`). -/
structure StoreState where
  yieldForecast : List YieldForecast
  priceForecast : List PriceForecast
  allocationData : List AllocationData
  kpiSummary : Option KPISummary
  scenarios : List OptimizationScenario
  isLoading : Bool
  error : Option String
  lastUpdated : Option ℚ
  deriving DecidableEq, Repr

/-- The store's initial state: empty views, `isLoading = true`. -/
def initialStoreState : StoreState :=
  { yieldForecast := [], priceForecast := [], allocationData := [],
    kpiSummary := none, scenarios := [], isLoading := true,
    error := none, lastUpdated := none }

/-- The world against which one branch of the `Promise.all` in
`loadData()` computes, under event-loop semantics.  The five async
transformer bodies are entered in array order and each runs
synchronously up to its first `await`; every cache read any body
performs — its own view key, and the `predictions_<n>` key inside
`getAIPredictions` — lies in that synchronous prefix, while every
`cache.set` in every body runs only after at least one `await` has
resolved.  Hence no body can observe another body's cache writes during
one `loadData()`, and each computes against the cache exactly as it
stood when `Promise.all` was entered (`w.cache` below).  What the
interleaving of the suspended continuations does determine is which
draws of the global `Math.random()` sequence and which global request
numbers a body consumes: `f` maps the body's local draw index to its
position in the global sequence and `g` does the same for request
numbers, so a body's `n`-th draw is the global draw `f n` and its `n`-th
request is global request `g n`.  Configuration, clock, date and the
sine table are shared and immutable throughout the load.  The body's
event log starts empty; it records that body's own calls. -/
def taskWorld (w : World) (f g : ℕ → ℕ) : World :=
  { w with rngStream := fun n => w.rngStream (f n), rngIdx := 0,
           client := fun n i => w.client (g n) i, callIdx := 0,
           events := [] }

/-- `loadData()`: the five transformers run concurrently via
`Promise.all`.  Each body is its sequential function applied to its
snapshot world (`taskWorld`, with `f i`/`g i` the schedule's projection
maps for the `i`-th branch — any event-loop schedule determines such
maps); the bodies cannot see one another's cache writes, so none of them
can reuse another's prediction list.  The store publishes the five
resolved values together, with `lastUpdated = now`, a cleared error and
`isLoading = false`; no transformer of the model can reject — each
absorbs its failures internally — so the `catch` branch that would keep
old data and set the error message is dead, exactly as in the source.
The model returns the store alone: the post-load cache contents depend
on the settlement order, and no statement below reads them. -/
def loadData (s : StoreState) (w : World) (f g : Fin 5 → ℕ → ℕ) : StoreState :=
  { s with
      yieldForecast := (generateAIYieldForecast (taskWorld w (f 0) (g 0))).1
      priceForecast := (generateAIPriceForecast (taskWorld w (f 1) (g 1))).1
      allocationData := (getAIAllocationData (taskWorld w (f 2) (g 2))).1
      kpiSummary := some (getAIKPISummary (taskWorld w (f 3) (g 3))).1
      scenarios := (getAIOptimizationScenarios (taskWorld w (f 4) (g 4))).1
      lastUpdated := some w.now
      error := none
      isLoading := false }

/-- `refreshData()`: clear the cache, then reload; the snapshot every
branch sees is therefore the empty cache. -/
def refreshData (s : StoreState) (w : World) (f g : Fin 5 → ℕ → ℕ) : StoreState :=
  loadData s (clearCache w) f g

/-- The names of the thirteen `PredictionInput` fields
(`keyof PredictionInput`). -/
inductive InputField where
  | ffb | cpo | moisture | cv | eff | oil_price | demand_bio
  | carbon_tax | demand_feed | protein_score | supply_factor
  | compost_base | nutrient_score
  deriving DecidableEq, Repr

/-- A field's validation constraints (`ValidationRule` in
`predictionPresets.ts`; the display tooltip is omitted as it carries no
behaviour). -/
structure ValidationRule where
  min : ℚ
  max : ℚ
  label : String
  unit : String
  deriving DecidableEq, Repr

/-- The `validationRules` table. -/
def validationRules : InputField → ValidationRule
  | InputField.ffb => ⟨80, 150, "FFB (Fresh Fruit Bunches)", "tons/day"⟩
  | InputField.cpo => ⟨14, 36, "CPO (Crude Palm Oil)", "%"⟩
  | InputField.moisture => ⟨35, 45, "Moisture Content", "%"⟩
  | InputField.cv => ⟨16, 19, "Calorific Value (CV)", "MJ/kg"⟩
  | InputField.eff => ⟨75/100, 95/100, "Mill Efficiency", ""⟩
  | InputField.oil_price => ⟨70, 130, "Oil Price Index", ""⟩
  | InputField.demand_bio => ⟨4/10, 1, "Biofuel Demand", ""⟩
  | InputField.carbon_tax => ⟨8, 15, "Carbon Tax", "$/ton CO2"⟩
  | InputField.demand_feed => ⟨4/10, 1, "Animal Feed Demand", ""⟩
  | InputField.protein_score => ⟨7/10, 12/10, "Protein Score", ""⟩
  | InputField.supply_factor => ⟨8/10, 13/10, "Supply Factor", ""⟩
  | InputField.compost_base => ⟨20, 50, "Compost Base Price", "$/ton"⟩
  | InputField.nutrient_score => ⟨7/10, 13/10, "Nutrient Score", ""⟩

/-- Field access `data[field]`. -/
def PredictionInput.get (d : PredictionInput) : InputField → ℚ
  | InputField.ffb => d.ffb
  | InputField.cpo => d.cpo
  | InputField.moisture => d.moisture
  | InputField.cv => d.cv
  | InputField.eff => d.eff
  | InputField.oil_price => d.oil_price
  | InputField.demand_bio => d.demand_bio
  | InputField.carbon_tax => d.carbon_tax
  | InputField.demand_feed => d.demand_feed
  | InputField.protein_score => d.protein_score
  | InputField.supply_factor => d.supply_factor
  | InputField.compost_base => d.compost_base
  | InputField.nutrient_score => d.nutrient_score

/-- `Object.keys(validationRules)` in declaration order. -/
def allInputFields : List InputField :=
  [InputField.ffb, InputField.cpo, InputField.moisture, InputField.cv,
   InputField.eff, InputField.oil_price, InputField.demand_bio,
   InputField.carbon_tax, InputField.demand_feed, InputField.protein_score,
   InputField.supply_factor, InputField.compost_base, InputField.nutrient_score]

/-- `defaultValues` of `predictionPresets.ts`. -/
def defaultValues : PredictionInput :=
  { ffb := 120, cpo := 25, moisture := 40, cv := 17, eff := 85/100,
    oil_price := 95, demand_bio := 7/10, carbon_tax := 12,
    demand_feed := 55/100, protein_score := 9/10, supply_factor := 11/10,
    compost_base := 30, nutrient_score := 1 }

/-- `validateField(field, value)`: an error message exactly when the
value is strictly below the minimum or strictly above the maximum; the
endpoints are accepted.  (The numeral rendering inside the message text
differs from JavaScript's; only the presence of the message matters to
the contract.) -/
def validateField (field : InputField) (value : ℚ) : Option String :=
  let rule := validationRules field
  if value < rule.min ∨ value > rule.max then
    some ("Must be between " ++ toString rule.min ++ " and " ++ toString rule.max ++
          (if rule.unit = "" then "" else " " ++ rule.unit))
  else
    none

/-- `validateForm(data)`: the error record, as the list of
(field, message) pairs accumulated over `Object.keys(validationRules)`. -/
def validateForm (data : PredictionInput) : List (InputField × String) :=
  allInputFields.filterMap (fun f =>
    (validateField f (data.get f)).map (fun e => (f, e)))

/-- The submit handler of the prediction input form
(`PredictionInputForm.handleSubmit`): run `validateForm`; if any error
is present, return without submitting (`none` — no request is issued),
otherwise pass the form data, unmodified, to `onSubmit` (`some`). -/
def handleSubmit (formData : PredictionInput) : Option PredictionInput :=
  if validateForm formData = [] then some formData else none

/-! ### Concrete worlds used by witnesses and counterexamples -/

/-- A base world for concrete runs: live mode on, TTL 5, all random draws
0, all sine values 0, and a remote client that always rejects. -/
def baseWorld : World :=
  { config := { USE_REAL_API := true, API_AVAILABLE := true, CACHE_TTL := 5 }
    cache := [], now := 0, today := 0
    rngStream := fun _ => 0, rngIdx := 0
    sinv := fun _ => 0
    client := fun _ _ => Except.error "down", callIdx := 0, events := [] }

/-- A remote client that answers every request with a fixed plausible
result. -/
def okClient : ℕ → PredictionInput → Except String PredictionResult :=
  fun _ _ =>
    Except.ok { biomass := 28, prices := { biofuel := 90, feed := 55, compost := 33 },
                optimal_allocation := 0, allocation_description := "Max Revenue" }

/-! ### General lemmas about the cache -/

/-- After filtering a key out, a lookup of that key fails. -/
theorem find?_filter_ne (key : String) (l : List (String × CacheEntry)) :
    (l.filter (fun e => ¬ (e.1 = key))).find? (fun e => e.1 == key) = none := by
  induction l with
  | nil => rfl
  | cons e l ih =>
      by_cases h : e.1 = key
      · simp [List.filter, h, ih]
      · simp [List.filter, h, List.find?, ih]

/-- A fresh entry (written at the current time) is returned as long as
the TTL is nonnegative. -/
theorem cacheGet_set_fresh (key : String) (v : CacheVal) (w : World)
    (hTTL : 0 ≤ w.config.CACHE_TTL) :
    cacheGet key (cacheSet key v w) = (some v, cacheSet key v w) := by
  simp only [cacheGet, cacheSet, List.find?]
  simp only [beq_self_eq_true, cond_true]
  have : ¬ (w.now - w.now > w.config.CACHE_TTL) := by
    simp only [sub_self]
    linarith
  simp only [this, if_false]

/-- A lookup in an empty cache misses. -/
theorem cacheGet_nil (key : String) (w : World) (h : w.cache = []) :
    cacheGet key w = (none, w) := by
  simp [cacheGet, h]

/-- A lookup whose key is absent misses without mutating the world. -/
theorem cacheGet_miss (key : String) (w : World)
    (h : w.cache.find? (fun e => e.1 == key) = none) :
    cacheGet key w = (none, w) := by
  simp [cacheGet, h]

/-- A lookup finding a non-expired entry at the head of the cache. -/
theorem cacheGet_cons_fresh (key : String) (e : CacheEntry) (rest : List (String × CacheEntry))
    (w : World) (hhead : w.cache = (key, e) :: rest)
    (hfresh : ¬ (w.now - e.timestamp > w.config.CACHE_TTL)) :
    cacheGet key w = (some e.data, w) := by
  simp only [cacheGet, hhead, List.find?, beq_self_eq_true, cond_true]
  rw [if_neg hfresh]

/-- A lookup finding an expired entry at the head of the cache evicts
it. -/
theorem cacheGet_cons_expired (key : String) (e : CacheEntry) (rest : List (String × CacheEntry))
    (w : World) (hhead : w.cache = (key, e) :: rest)
    (hexp : w.now - e.timestamp > w.config.CACHE_TTL) :
    cacheGet key w = (none, { w with cache := w.cache.filter (fun x => ¬ (x.1 = key)) }) := by
  simp only [cacheGet, hhead, List.find?, beq_self_eq_true, cond_true]
  rw [if_pos hexp]

/-! ### C2 — TTL cache semantics -/

/-- **C2, counterexample to the claim as stated.**  With TTL `T = 5`,
`set` at time `0` and `get` at elapsed time `t = 5`, the cache returns
the stored value even though `t < T` fails: the code evicts only when
`age > TTL`, so the claimed "returns `v` iff `t < T`" boundary is wrong
at `t = T`. -/
theorem C2_cache_ttl_cex :
    ¬ (((cacheGet "k" { cacheSet "k" (CacheVal.predictions []) baseWorld with now := 5 }).1
          = some (CacheVal.predictions []))
        ↔ (5 : ℚ) < baseWorld.config.CACHE_TTL) := by
  decide

/-- **C2 (amended).**  For every TTL value `T` and elapsed time `t`,
`get key` after `set key v` returns `v` iff `t ≤ T` (the source evicts
only when the age strictly exceeds the TTL); otherwise it returns
absent, removes the entry, and an immediately repeated `get key` is
still absent. -/
theorem C2_cache_ttl (w : World) (key : String) (v : CacheVal) (t : ℚ) :
    (((cacheGet key { cacheSet key v w with now := w.now + t }).1 = some v)
        ↔ t ≤ w.config.CACHE_TTL)
    ∧ (w.config.CACHE_TTL < t →
        (cacheGet key { cacheSet key v w with now := w.now + t }).1 = none
        ∧ ((cacheGet key { cacheSet key v w with now := w.now + t }).2).cache.find?
            (fun e => e.1 == key) = none
        ∧ (cacheGet key
            (cacheGet key { cacheSet key v w with now := w.now + t }).2).1 = none) := by
  have hhead : ({ cacheSet key v w with now := w.now + t } : World).cache
      = (key, (⟨v, w.now⟩ : CacheEntry)) :: w.cache.filter (fun e => ¬ (e.1 = key)) := rfl
  by_cases h : t ≤ w.config.CACHE_TTL
  · have hfresh : ¬ (({ cacheSet key v w with now := w.now + t } : World).now
        - (⟨v, w.now⟩ : CacheEntry).timestamp > w.config.CACHE_TTL) := by
      simp only [cacheSet]
      have : w.now + t - w.now = t := by ring
      rw [this]
      linarith
    rw [cacheGet_cons_fresh key _ _ _ hhead hfresh]
    constructor
    · simp [h]
    · intro hc; linarith
  · have hlt : w.config.CACHE_TTL < t := not_le.1 h
    have hexp : ({ cacheSet key v w with now := w.now + t } : World).now
        - (⟨v, w.now⟩ : CacheEntry).timestamp > w.config.CACHE_TTL := by
      simp only [cacheSet]
      have : w.now + t - w.now = t := by ring
      rw [this]
      linarith
    rw [cacheGet_cons_expired key _ _ _ hhead hexp]
    refine ⟨by simp [h], fun _ => ⟨rfl, find?_filter_ne key _, ?_⟩⟩
    rw [cacheGet_miss key _ (find?_filter_ne key _)]

/-- **C2 witness.**  The amended statement evaluated at a concrete world,
key and elapsed time beyond the TTL. -/
theorem C2_cache_ttl_witness :
    (((cacheGet "k" { cacheSet "k" (CacheVal.predictions []) baseWorld with now := baseWorld.now + 6 }).1
          = some (CacheVal.predictions []))
        ↔ (6 : ℚ) ≤ baseWorld.config.CACHE_TTL)
    ∧ (baseWorld.config.CACHE_TTL < 6 →
        (cacheGet "k" { cacheSet "k" (CacheVal.predictions []) baseWorld with now := baseWorld.now + 6 }).1 = none
        ∧ ((cacheGet "k" { cacheSet "k" (CacheVal.predictions []) baseWorld with now := baseWorld.now + 6 }).2).cache.find?
            (fun e => e.1 == "k") = none
        ∧ (cacheGet "k"
            (cacheGet "k" { cacheSet "k" (CacheVal.predictions []) baseWorld with now := baseWorld.now + 6 }).2).1 = none) :=
  C2_cache_ttl baseWorld "k" (CacheVal.predictions []) 6

/-! ### C9 — input validation -/

/-- Every field name is listed in `allInputFields`. -/
theorem mem_allInputFields (g : InputField) : g ∈ allInputFields := by
  cases g <;> simp [allInputFields]

/-- `validateField` errors exactly on out-of-range values. -/
theorem validateField_isSome_iff (g : InputField) (x : ℚ) :
    (validateField g x).isSome
      ↔ (x < (validationRules g).min ∨ (validationRules g).max < x) := by
  by_cases hc : x < (validationRules g).min ∨ x > (validationRules g).max
  · simp only [validateField, if_pos hc, Option.isSome_some, true_iff]
    exact hc
  · simp only [validateField, if_neg hc, Option.isSome_none]
    exact iff_of_false (by simp) hc

/-- `validateForm` has an entry for a field exactly when `validateField`
errors on that field's value. -/
theorem validateForm_mem_iff (data : PredictionInput) (g : InputField) :
    (∃ msg, (g, msg) ∈ validateForm data)
      ↔ (validateField g (data.get g)).isSome := by
  constructor
  · rintro ⟨msg, hm⟩
    simp only [validateForm, List.mem_filterMap] at hm
    obtain ⟨a, _, hmap⟩ := hm
    obtain ⟨e, he, hpair⟩ := Option.map_eq_some'.1 hmap
    obtain ⟨rfl, rfl⟩ := Prod.mk.injEq .. ▸ hpair
    rw [he]
    rfl
  · intro hs
    obtain ⟨msg, hmsg⟩ := Option.isSome_iff_exists.1 hs
    refine ⟨msg, ?_⟩
    simp only [validateForm, List.mem_filterMap]
    exact ⟨g, mem_allInputFields g, by rw [hmsg]; rfl⟩

/-- **C9.**  `validateField field v` errors exactly when `v` lies
strictly outside the field's declared `[min, max]` (so the endpoints are
accepted); `validateForm` has an error entry precisely for the
out-of-range fields; and the form's submit handler rejects a form with
any out-of-range field before any request is issued (`none`: `onSubmit`
is never invoked), while an accepted form is submitted unmodified — in
particular never clamped. -/
theorem C9_validation (f : InputField) (v : ℚ) (data : PredictionInput) :
    ((validateField f v).isSome
        ↔ (v < (validationRules f).min ∨ (validationRules f).max < v))
    ∧ ((∃ msg, (f, msg) ∈ validateForm data)
        ↔ (data.get f < (validationRules f).min ∨ (validationRules f).max < data.get f))
    ∧ ((data.get f < (validationRules f).min ∨ (validationRules f).max < data.get f) →
        handleSubmit data = none)
    ∧ (∀ d, handleSubmit data = some d → d = data) := by
  refine ⟨validateField_isSome_iff f v,
          (validateForm_mem_iff data f).trans (validateField_isSome_iff f _), ?_, ?_⟩
  · intro hout
    obtain ⟨msg, hm⟩ := (validateForm_mem_iff data f).2 ((validateField_isSome_iff f _).2 hout)
    rw [handleSubmit, if_neg]
    intro hnil
    rw [hnil] at hm
    exact absurd hm (List.not_mem_nil _)
  · intro d hd
    rw [handleSubmit] at hd
    by_cases hnil : validateForm data = []
    · rw [if_pos hnil] at hd
      exact (Option.some.injEq .. ▸ hd).symm
    · rw [if_neg hnil] at hd
      exact absurd hd (by simp)

/-- **C9 witness.**  The statement at the default form values with an
over-range throughput: the form is rejected with no request. -/
theorem C9_validation_witness :
    (((validateField InputField.ffb 200).isSome
        ↔ ((200 : ℚ) < (validationRules InputField.ffb).min ∨ (validationRules InputField.ffb).max < 200))
    ∧ ((∃ msg, (InputField.ffb, msg) ∈ validateForm { defaultValues with ffb := 200 })
        ↔ (({ defaultValues with ffb := 200 } : PredictionInput).get InputField.ffb < (validationRules InputField.ffb).min
            ∨ (validationRules InputField.ffb).max < ({ defaultValues with ffb := 200 } : PredictionInput).get InputField.ffb))
    ∧ ((({ defaultValues with ffb := 200 } : PredictionInput).get InputField.ffb < (validationRules InputField.ffb).min
            ∨ (validationRules InputField.ffb).max < ({ defaultValues with ffb := 200 } : PredictionInput).get InputField.ffb) →
        handleSubmit { defaultValues with ffb := 200 } = none)
    ∧ (∀ d, handleSubmit { defaultValues with ffb := 200 } = some d →
        d = { defaultValues with ffb := 200 })) :=
  C9_validation InputField.ffb 200 { defaultValues with ffb := 200 }

/-! ### C6 — allocation weight table and revenue/emission formulas -/

/-- A prediction with unit biomass and unit prices, on which the exact
(unrounded) revenue formula of the claim differs from the code. -/
def unitPrediction : PredictionResult :=
  { biomass := 1, prices := { biofuel := 1, feed := 1, compost := 1 },
    optimal_allocation := 0, allocation_description := "Max Revenue" }

/-- **C6, counterexample to the claim as stated.**  The claim's
`revenue = price × biomass × weight` holds neither with the weight read
as a fraction nor as a percentage: for unit biomass and unit biofuel
price under class 0 the code computes `Math.round(1 × 1 × 0.55) = 1`,
which is neither `0.55` nor `55`. -/
theorem C6_allocation_cex :
    (allocationFromPrediction unitPrediction).head?.map (fun r => r.revenue) = some 1
    ∧ ¬ ((1 : ℚ) = unitPrediction.prices.biofuel * unitPrediction.biomass * (55/100))
    ∧ ¬ ((1 : ℚ) = unitPrediction.prices.biofuel * unitPrediction.biomass * 55) := by
  decide

/-- The allocation view as described by the amended claim: the predicted
class selects the fixed weight table (classes 1 and unknown share the
same weights), each category's revenue is `Math.round` of
price × biomass × weight-fraction — with the carbon-credit price fixed
at 40 — and each category's emissions are minus `Math.round` of
biomass × weight-fraction × the per-category emission factor
(0.8 / 0.1 / 0.4 / 0.6). -/
def claimC6Allocation (p : PredictionResult) : List AllocationData :=
  let w : AllocWeights :=
    if p.optimal_allocation = 0 then ⟨55, 25, 12, 8⟩
    else if p.optimal_allocation = 2 then ⟨20, 15, 35, 30⟩
    else ⟨35, 28, 22, 15⟩
  [ { category := "Biofuel", value := w.biofuel
      revenue := (jsRound (p.prices.biofuel * p.biomass * (w.biofuel/100)) : ℚ)
      emissions := -(jsRound (p.biomass * (w.biofuel/100) * (8/10)) : ℚ)
      color := "hsl(var(--chart-1))" },
    { category := "Animal Feed", value := w.feed
      revenue := (jsRound (p.prices.feed * p.biomass * (w.feed/100)) : ℚ)
      emissions := -(jsRound (p.biomass * (w.feed/100) * (1/10)) : ℚ)
      color := "hsl(var(--chart-2))" },
    { category := "Compost", value := w.compost
      revenue := (jsRound (p.prices.compost * p.biomass * (w.compost/100)) : ℚ)
      emissions := -(jsRound (p.biomass * (w.compost/100) * (4/10)) : ℚ)
      color := "hsl(var(--chart-3))" },
    { category := "Carbon Credits", value := w.carbon
      revenue := (jsRound (40 * p.biomass * (w.carbon/100)) : ℚ)
      emissions := -(jsRound (p.biomass * (w.carbon/100) * (6/10)) : ℚ)
      color := "hsl(var(--chart-4))" } ]

/-- **C6 (amended).**  For every prediction, the allocation view equals
the claim's table-driven computation with `Math.round` applied to each
category's revenue and emissions (and the fixed carbon price 40):
class 0 → {55, 25, 12, 8}, class 1 → {35, 28, 22, 15},
class 2 → {20, 15, 35, 30}, any unknown class → class 1's weights. -/
theorem C6_allocation (p : PredictionResult) :
    allocationFromPrediction p = claimC6Allocation p := by
  unfold allocationFromPrediction claimC6Allocation allocationMap
  by_cases h0 : p.optimal_allocation = 0
  · simp [h0]
  · by_cases h1 : p.optimal_allocation = 1
    · simp [h0, h1]
    · by_cases h2 : p.optimal_allocation = 2
      · simp [h0, h1, h2]
      · simp [h0, h1, h2]

/-! ### C5 — scenario builder stays in range -/

/-- `Math.round` is at most half above its argument. -/
theorem jsRound_le (x : ℚ) : (jsRound x : ℚ) ≤ x + 1/2 := by
  rw [jsRound_eq_floor]
  exact_mod_cast Int.floor_le (x + 1/2)

/-- `Math.round` is less than half below its argument. -/
theorem lt_jsRound (x : ℚ) : x - 1/2 < (jsRound x : ℚ) := by
  rw [jsRound_eq_floor]
  have := Int.sub_one_lt_floor (x + 1/2)
  push_cast at this ⊢
  linarith

/-- One-decimal rounding moves a value by at most `1/20`. -/
theorem round1_le (x : ℚ) : round1 x ≤ x + 1/20 := by
  have := jsRound_le (x * 10)
  rw [round1]
  linarith

/-- One-decimal rounding moves a value by at most `1/20`. -/
theorem lt_round1 (x : ℚ) : x - 1/20 < round1 x := by
  have := lt_jsRound (x * 10)
  rw [round1]
  linarith

/-- Two-decimal rounding moves a value by at most `1/200`. -/
theorem round2_le (x : ℚ) : round2 x ≤ x + 1/200 := by
  have := jsRound_le (x * 100)
  rw [round2]
  linarith

/-- Two-decimal rounding moves a value by at most `1/200`. -/
theorem lt_round2 (x : ℚ) : x - 1/200 < round2 x := by
  have := lt_jsRound (x * 100)
  rw [round2]
  linarith

set_option maxHeartbeats 2000000 in
/-- **C5.**  For every day offset, with the default base input, every
numeric field of the scenario builder's output lies within its declared
`[min, max]`; the throughput is exactly the rounded product of the base
throughput, the seasonal multiplier `1 + 0.15·sin(offset/30·π)` and the
random multiplier `0.95 + r/10 ∈ [0.95, 1.05)`; and the oil-price and
demand fields carry independent bounded random perturbations whose
results coincide with clamping to the declared valid ranges (the
perturbed values never leave them). -/
theorem C5_scenario_builder (dayOffset : ℕ) (w : World) (hr : RngOk w) (hs : SinOk w) :
    (∀ f : InputField,
        (validationRules f).min ≤ ((createInputScenario PartialInput.empty dayOffset w).1).get f
        ∧ ((createInputScenario PartialInput.empty dayOffset w).1).get f ≤ (validationRules f).max)
    ∧ ((createInputScenario PartialInput.empty dayOffset w).1).ffb
        = round1 (120 * (1 + (15/100) * w.sinv dayOffset) * (95/100 + w.rngStream w.rngIdx * (1/10)))
    ∧ ((createInputScenario PartialInput.empty dayOffset w).1).oil_price
        = max (validationRules InputField.oil_price).min
            (min (validationRules InputField.oil_price).max
              (round2 (95 + (w.rngStream (w.rngIdx + 1) - 1/2) * 15)))
    ∧ ((createInputScenario PartialInput.empty dayOffset w).1).demand_bio
        = max (validationRules InputField.demand_bio).min
            (min (validationRules InputField.demand_bio).max
              (7/10 + (w.rngStream (w.rngIdx + 2) - 1/2) * (2/10)))
    ∧ ((createInputScenario PartialInput.empty dayOffset w).1).demand_feed
        = max (validationRules InputField.demand_feed).min
            (min (validationRules InputField.demand_feed).max
              (55/100 + (w.rngStream (w.rngIdx + 3) - 1/2) * (2/10))) := by
  obtain ⟨hs0, hs1⟩ := abs_le.1 (hs dayOffset)
  obtain ⟨hr0a, hr0b⟩ := hr w.rngIdx
  obtain ⟨hr1a, hr1b⟩ := hr (w.rngIdx + 1)
  obtain ⟨hr2a, hr2b⟩ := hr (w.rngIdx + 2)
  obtain ⟨hr3a, hr3b⟩ := hr (w.rngIdx + 3)
  have hseas_lo : (85/100 : ℚ) ≤ 1 + (15/100) * w.sinv dayOffset := by linarith
  have hseas_hi : 1 + (15/100) * w.sinv dayOffset ≤ (115/100 : ℚ) := by linarith
  have hrf_lo : (95/100 : ℚ) ≤ 95/100 + w.rngStream w.rngIdx * (1/10) := by linarith
  have hrf_hi : 95/100 + w.rngStream w.rngIdx * (1/10) ≤ (105/100 : ℚ) := by linarith
  have hprod_lo : (969/10 : ℚ) ≤ 120 * (1 + (15/100) * w.sinv dayOffset) * (95/100 + w.rngStream w.rngIdx * (1/10)) := by
    nlinarith
  have hprod_hi : 120 * (1 + (15/100) * w.sinv dayOffset) * (95/100 + w.rngStream w.rngIdx * (1/10)) ≤ (1449/10 : ℚ) := by
    nlinarith
  have hffb_lo : (80 : ℚ) ≤ round1 (120 * (1 + (15/100) * w.sinv dayOffset) * (95/100 + w.rngStream w.rngIdx * (1/10))) := by
    have := lt_round1 (120 * (1 + (15/100) * w.sinv dayOffset) * (95/100 + w.rngStream w.rngIdx * (1/10)))
    linarith
  have hffb_hi : round1 (120 * (1 + (15/100) * w.sinv dayOffset) * (95/100 + w.rngStream w.rngIdx * (1/10))) ≤ (150 : ℚ) := by
    have := round1_le (120 * (1 + (15/100) * w.sinv dayOffset) * (95/100 + w.rngStream w.rngIdx * (1/10)))
    linarith
  have hop_lo : (70 : ℚ) ≤ round2 (95 + (w.rngStream (w.rngIdx + 1) - 1/2) * 15) := by
    have := lt_round2 (95 + (w.rngStream (w.rngIdx + 1) - 1/2) * 15)
    linarith
  have hop_hi : round2 (95 + (w.rngStream (w.rngIdx + 1) - 1/2) * 15) ≤ (130 : ℚ) := by
    have := round2_le (95 + (w.rngStream (w.rngIdx + 1) - 1/2) * 15)
    linarith
  have hdb_lo : (6/10 : ℚ) ≤ 7/10 + (w.rngStream (w.rngIdx + 2) - 1/2) * (2/10) := by linarith
  have hdb_hi : 7/10 + (w.rngStream (w.rngIdx + 2) - 1/2) * (2/10) ≤ (8/10 : ℚ) := by linarith
  have hdf_lo : (45/100 : ℚ) ≤ 55/100 + (w.rngStream (w.rngIdx + 3) - 1/2) * (2/10) := by linarith
  have hdf_hi : 55/100 + (w.rngStream (w.rngIdx + 3) - 1/2) * (2/10) ≤ (65/100 : ℚ) := by linarith
  have hout : (createInputScenario PartialInput.empty dayOffset w).1 =
      { ffb := round1 (120 * (1 + (15/100) * w.sinv dayOffset) * (95/100 + w.rngStream w.rngIdx * (1/10)))
        cpo := 25, moisture := 40, cv := 17, eff := 85/100
        oil_price := round2 (95 + (w.rngStream (w.rngIdx + 1) - 1/2) * 15)
        demand_bio := max (1/2) (min (9/10) (7/10 + (w.rngStream (w.rngIdx + 2) - 1/2) * (2/10)))
        carbon_tax := 12
        demand_feed := max (4/10) (min (8/10) (55/100 + (w.rngStream (w.rngIdx + 3) - 1/2) * (2/10)))
        protein_score := 9/10, supply_factor := 11/10, compost_base := 30
        nutrient_score := 1 } := by
    simp [createInputScenario, mergeBase, PartialInput.empty, nextRand]
  have hdb_code : max (1/2 : ℚ) (min (9/10) (7/10 + (w.rngStream (w.rngIdx + 2) - 1/2) * (2/10)))
      = 7/10 + (w.rngStream (w.rngIdx + 2) - 1/2) * (2/10) := by
    rw [min_eq_right (by linarith), max_eq_right (by linarith)]
  have hdf_code : max (4/10 : ℚ) (min (8/10) (55/100 + (w.rngStream (w.rngIdx + 3) - 1/2) * (2/10)))
      = 55/100 + (w.rngStream (w.rngIdx + 3) - 1/2) * (2/10) := by
    rw [min_eq_right (by linarith), max_eq_right (by linarith)]
  refine ⟨?_, ?_, ?_, ?_, ?_⟩
  · intro f
    rw [hout]
    cases f <;> simp only [PredictionInput.get, validationRules]
    case ffb => exact ⟨hffb_lo, hffb_hi⟩
    case oil_price => exact ⟨hop_lo, hop_hi⟩
    case demand_bio => rw [hdb_code]; exact ⟨by linarith, by linarith⟩
    case demand_feed => rw [hdf_code]; exact ⟨by linarith, by linarith⟩
    all_goals exact ⟨by norm_num, by norm_num⟩
  · rw [hout]
  · rw [hout]
    simp only [validationRules]
    rw [min_eq_right hop_hi, max_eq_right hop_lo]
  · rw [hout, hdb_code]
    simp only [validationRules]
    rw [min_eq_right (by linarith), max_eq_right (by linarith)]
  · rw [hout, hdf_code]
    simp only [validationRules]
    rw [min_eq_right (by linarith), max_eq_right (by linarith)]

/-- **C5 witness.**  The bounds instantiated at day offset 0 in the base
world, for the throughput field. -/
theorem C5_scenario_builder_witness :
    (validationRules InputField.ffb).min
        ≤ ((createInputScenario PartialInput.empty 0 baseWorld).1).get InputField.ffb
    ∧ ((createInputScenario PartialInput.empty 0 baseWorld).1).get InputField.ffb
        ≤ (validationRules InputField.ffb).max :=
  (C5_scenario_builder 0 baseWorld
      (fun _ => ⟨le_refl 0, by norm_num [baseWorld]⟩)
      (fun _ => by simp [baseWorld])).1 InputField.ffb

/-! ### Batch orchestrator infrastructure -/

/-- The domain bounds of the randomized fallback `PredictionResult`
substituted for a failed request: biomass in `[25, 35)`, biofuel price
in `[85, 105)`, feed price in `[50, 65)`, compost price in `[30, 40)`,
allocation class 1 labelled `Balanced`. -/
def FallbackOk (r : PredictionResult) : Prop :=
  25 ≤ r.biomass ∧ r.biomass < 35
  ∧ 85 ≤ r.prices.biofuel ∧ r.prices.biofuel < 105
  ∧ 50 ≤ r.prices.feed ∧ r.prices.feed < 65
  ∧ 30 ≤ r.prices.compost ∧ r.prices.compost < 40
  ∧ r.optimal_allocation = 1 ∧ r.allocation_description = "Balanced"

/-- The fallback result drawn from a well-behaved random stream lies
within the fallback bounds. -/
theorem fallbackPrediction_ok (w : World) (hr : RngOk w) :
    FallbackOk (fallbackPrediction w).1 := by
  obtain ⟨h0a, h0b⟩ := hr w.rngIdx
  obtain ⟨h1a, h1b⟩ := hr (w.rngIdx + 1)
  obtain ⟨h2a, h2b⟩ := hr (w.rngIdx + 2)
  obtain ⟨h3a, h3b⟩ := hr (w.rngIdx + 3)
  refine ⟨by simp [fallbackPrediction, nextRand]; linarith,
          by simp [fallbackPrediction, nextRand]; linarith,
          by simp [fallbackPrediction, nextRand]; linarith,
          by simp [fallbackPrediction, nextRand]; linarith,
          by simp [fallbackPrediction, nextRand]; linarith,
          by simp [fallbackPrediction, nextRand]; linarith,
          by simp [fallbackPrediction, nextRand]; linarith,
          by simp [fallbackPrediction, nextRand]; linarith,
          rfl, rfl⟩

/-- One batch item leaves the world unchanged except for the random
cursor, one more request, and one more `remoteCall` event. -/
theorem fetchOne_world (i : PredictionInput) (w : World) :
    ∃ k, (fetchOne i w).2
      = { w with rngIdx := k, callIdx := w.callIdx + 1,
                 events := w.events ++ [Event.remoteCall i] } := by
  cases h : w.client w.callIdx i with
  | ok r => exact ⟨w.rngIdx, by simp [fetchOne, getPrediction, h]⟩
  | error e => exact ⟨w.rngIdx + 1 + 1 + 1 + 1,
      by simp [fetchOne, getPrediction, fallbackPrediction, nextRand, h]⟩

/-- One batch item returns the client's answer on success and a bounded
fallback on failure. -/
theorem fetchOne_val (i : PredictionInput) (w : World) (hr : RngOk w) :
    (∀ pr, w.client w.callIdx i = Except.ok pr → (fetchOne i w).1 = pr)
    ∧ (∀ e, w.client w.callIdx i = Except.error e → FallbackOk (fetchOne i w).1) := by
  constructor
  · intro pr h
    simp [fetchOne, getPrediction, h]
  · intro e h
    have : (fetchOne i w).1 = (fallbackPrediction
        { w with callIdx := w.callIdx + 1,
                 events := w.events ++ [Event.remoteCall i] }).1 := by
      simp [fetchOne, getPrediction, h]
    rw [this]
    exact fallbackPrediction_ok _ hr

/-- `stMap` produces one output per input. -/
theorem stMap_length (f : α → World → β × World) :
    ∀ (l : List α) (w : World), (stMap f l w).1.length = l.length := by
  intro l
  induction l with
  | nil => intro w; rfl
  | cons x xs ih => intro w; simp [stMap, ih]

/-- `stMap` over an appended list splits into two sequential passes. -/
theorem stMap_append (f : α → World → β × World) :
    ∀ (l₁ l₂ : List α) (w : World),
      stMap f (l₁ ++ l₂) w
        = ((stMap f l₁ w).1 ++ (stMap f l₂ (stMap f l₁ w).2).1,
           (stMap f l₂ (stMap f l₁ w).2).2) := by
  intro l₁
  induction l₁ with
  | nil => intro l₂ w; simp [stMap]
  | cons x xs ih => intro l₂ w; simp [stMap, ih]

/-- Fetching the batches of five sequentially is the same as fetching
the scenarios one after the other: the chunking only bounds concurrency,
not the result. -/
theorem fetchBatches_chunk5 :
    ∀ (n : ℕ) (l : List PredictionInput), l.length ≤ n → ∀ (w : World),
      fetchBatches (chunk5 l) w = stMap fetchOne l w := by
  intro n
  induction n with
  | zero =>
      intro l hl w
      have : l = [] := List.eq_nil_of_length_eq_zero (Nat.le_zero.1 hl)
      subst this
      rfl
  | succ n ih =>
      intro l hl w
      match l with
      | [] => rfl
      | [a] => simp [chunk5, fetchBatches, stMap]
      | [a, b] => simp [chunk5, fetchBatches, stMap]
      | [a, b, c] => simp [chunk5, fetchBatches, stMap]
      | [a, b, c, d] => simp [chunk5, fetchBatches, stMap]
      | a :: b :: c :: d :: e :: rest =>
          have hrest : rest.length ≤ n := by
            simp only [List.length_cons] at hl
            omega
          simp only [chunk5, fetchBatches, List.take, List.drop]
          rw [ih rest hrest]
          simp [stMap]

/-- A sequential fetch pass leaves the world unchanged except for the
random cursor, one request per input, and one `remoteCall` event per
input, in input order. -/
theorem stMap_fetchOne_world :
    ∀ (l : List PredictionInput) (w : World),
      ∃ k, (stMap fetchOne l w).2
        = { w with rngIdx := k, callIdx := w.callIdx + l.length,
                   events := w.events ++ l.map Event.remoteCall } := by
  intro l
  induction l with
  | nil =>
      intro w
      exact ⟨w.rngIdx, by simp [stMap]⟩
  | cons x xs ih =>
      intro w
      obtain ⟨k₁, hw₁⟩ := fetchOne_world x w
      obtain ⟨k, hk⟩ := ih (fetchOne x w).2
      refine ⟨k, ?_⟩
      simp only [stMap]
      rw [hk, hw₁]
      apply World.ext <;> simp [List.length_cons] <;> try omega

/-- The `i`-th output of a sequential fetch pass is the client's answer
to the `i`-th input at request number `callIdx + i` when that request
succeeds, and a bounded fallback when it fails. -/
theorem stMap_fetchOne_get :
    ∀ (l : List PredictionInput) (w : World), RngOk w →
      ∀ i s, l.get? i = some s →
        ∃ r, (stMap fetchOne l w).1.get? i = some r
          ∧ (∀ pr, w.client (w.callIdx + i) s = Except.ok pr → r = pr)
          ∧ (∀ e, w.client (w.callIdx + i) s = Except.error e → FallbackOk r) := by
  intro l
  induction l with
  | nil =>
      intro w _ i s hget
      simp at hget
  | cons x xs ih =>
      intro w hr i s hget
      obtain ⟨k₁, hw₁⟩ := fetchOne_world x w
      match i with
      | 0 =>
          have hs : x = s := by simpa using hget
          refine ⟨(fetchOne x w).1, by simp [stMap], ?_, ?_⟩
          · intro pr h
            exact (fetchOne_val x w hr).1 pr (by rw [hs]; simpa using h)
          · intro e h
            exact (fetchOne_val x w hr).2 e (by rw [hs]; simpa using h)
      | Nat.succ j =>
          have hr₁ : RngOk (fetchOne x w).2 := by rw [hw₁]; exact hr
          obtain ⟨r, hrget, hok, herr⟩ := ih (fetchOne x w).2 hr₁ j s (by simpa using hget)
          refine ⟨r, by simpa [stMap] using hrget, ?_, ?_⟩
          · intro pr h
            refine hok pr ?_
            rw [hw₁]
            show w.client (w.callIdx + 1 + j) s = Except.ok pr
            rw [show w.callIdx + 1 + j = w.callIdx + (j + 1) by omega]
            exact h
          · intro e h
            refine herr e ?_
            rw [hw₁]
            show w.client (w.callIdx + 1 + j) s = Except.error e
            rw [show w.callIdx + 1 + j = w.callIdx + (j + 1) by omega]
            exact h

/-- The scenario builder only advances the random cursor by four. -/
theorem createInputScenario_world (ov : PartialInput) (i : ℕ) (w : World) :
    (createInputScenario ov i w).2 = { w with rngIdx := w.rngIdx + 4 } := by
  have h : w.rngIdx + 1 + 1 + 1 + 1 = w.rngIdx + 4 := by omega
  simp [createInputScenario, nextRand, h]

/-- Building scenarios only advances the random cursor. -/
theorem buildScenarios_world (count : ℕ) (w : World) :
    (buildScenarios count w).2 = { w with rngIdx := w.rngIdx + 4 * count } := by
  rw [buildScenarios]
  have : ∀ (l : List ℕ) (v : World),
      (stMap (fun i w => createInputScenario PartialInput.empty i w) l v).2
        = { v with rngIdx := v.rngIdx + 4 * l.length } := by
    intro l
    induction l with
    | nil => intro v; simp [stMap]
    | cons x xs ihl =>
        intro v
        simp only [stMap]
        rw [ihl, createInputScenario_world]
        apply World.ext <;> simp [List.length_cons] <;> try omega
  rw [this]
  simp

/-- The scenario built by the batch orchestrator for offset `i`: the
`i`-th scenario consumes the `i`-th block of four random draws. -/
def nthScenario (w : World) (i : ℕ) : PredictionInput :=
  (createInputScenario PartialInput.empty i { w with rngIdx := w.rngIdx + 4 * i }).1

/-- The scenario value depends only on the random stream, its cursor and
the sine table. -/
theorem createInputScenario_val_ext (ov : PartialInput) (i : ℕ) (w w' : World)
    (h1 : w'.rngStream = w.rngStream) (h2 : w'.rngIdx = w.rngIdx)
    (h3 : w'.sinv = w.sinv) :
    (createInputScenario ov i w').1 = (createInputScenario ov i w).1 := by
  simp [createInputScenario, nextRand, h1, h2, h3]

/-- `nthScenario` depends only on the random stream, its cursor and the
sine table. -/
theorem nthScenario_ext (i : ℕ) (w w' : World)
    (h1 : w'.rngStream = w.rngStream) (h2 : w'.rngIdx = w.rngIdx)
    (h3 : w'.sinv = w.sinv) :
    nthScenario w' i = nthScenario w i := by
  rw [nthScenario, nthScenario]
  exact createInputScenario_val_ext _ _ _ _ h1 (by simp [h2]) h3

/-- The `i`-th output of the scenario-building pass. -/
theorem stMap_scen_get :
    ∀ (l : List ℕ) (w : World) (i x : ℕ), l.get? i = some x →
      (stMap (fun j v => createInputScenario PartialInput.empty j v) l w).1.get? i
        = some ((createInputScenario PartialInput.empty x
            { w with rngIdx := w.rngIdx + 4 * i }).1) := by
  intro l
  induction l with
  | nil => intro w i x hget; simp at hget
  | cons y ys ih =>
      intro w i x hget
      match i with
      | 0 =>
          have hx : y = x := by simpa using hget
          subst hx
          simp [stMap, createInputScenario, nextRand]
      | Nat.succ j =>
          simp only [stMap, List.get?]
          rw [ih _ j x (by simpa using hget)]
          exact congrArg some
            (createInputScenario_val_ext PartialInput.empty x _ _ rfl (by simp; omega) rfl)

/-- The scenario list depends only on the random stream, its cursor and
the sine table. -/
theorem stMap_scen_val_ext :
    ∀ (l : List ℕ) (w w' : World), w'.rngStream = w.rngStream →
      w'.rngIdx = w.rngIdx → w'.sinv = w.sinv →
      (stMap (fun j v => createInputScenario PartialInput.empty j v) l w').1
        = (stMap (fun j v => createInputScenario PartialInput.empty j v) l w).1 := by
  intro l
  induction l with
  | nil => intro w w' _ _ _; rfl
  | cons y ys ih =>
      intro w w' h1 h2 h3
      simp only [stMap]
      rw [createInputScenario_val_ext PartialInput.empty y w w' h1 h2 h3,
          ih (createInputScenario PartialInput.empty y w).2
             (createInputScenario PartialInput.empty y w').2
             (by rw [createInputScenario_world, createInputScenario_world]; exact h1)
             (by rw [createInputScenario_world, createInputScenario_world]; simp [h2])
             (by rw [createInputScenario_world, createInputScenario_world]; exact h3)]

/-- The scenario list of the batch orchestrator depends only on the
random stream, its cursor and the sine table. -/
theorem buildScenarios_val_ext (count : ℕ) (w w' : World)
    (h1 : w'.rngStream = w.rngStream) (h2 : w'.rngIdx = w.rngIdx)
    (h3 : w'.sinv = w.sinv) :
    (buildScenarios count w').1 = (buildScenarios count w).1 :=
  stMap_scen_val_ext (List.range count) w w' h1 h2 h3

/-- The orchestrator's `i`-th scenario is `nthScenario w i`. -/
theorem buildScenarios_get (count : ℕ) (w : World) (i : ℕ) (h : i < count) :
    (buildScenarios count w).1.get? i = some (nthScenario w i) := by
  rw [buildScenarios, nthScenario]
  exact stMap_scen_get (List.range count) w i i (List.get?_range h)

/-- The orchestrator builds one scenario per offset. -/
theorem buildScenarios_length (count : ℕ) (w : World) :
    (buildScenarios count w).1.length = count := by
  rw [buildScenarios, stMap_length]
  exact List.length_range count

/-- The cold path of the batch orchestrator: with no cached entry for
its key, `getAIPredictions count` resolves with exactly `count` results;
the world afterwards is the input world with the results cached, `count`
more requests issued, and the event log extended by the batch marker
followed by one `remoteCall` per scenario in offset order; and the
`i`-th result is the client's answer for `nthScenario w i` at request
`callIdx + i` when that request succeeds, and a bounded fallback when it
fails. -/
theorem getAIPredictions_cold (count : ℕ) (w : World) (hr : RngOk w)
    (hcold : w.cache.find? (fun e => e.1 == predictionsCacheKey count) = none) :
    (getAIPredictions count w).1.length = count
    ∧ (∃ k,
        (getAIPredictions count w).2
          = cacheSet (predictionsCacheKey count)
              (CacheVal.predictions (getAIPredictions count w).1)
              { w with rngIdx := k, callIdx := w.callIdx + count,
                       events := w.events ++ Event.batchCall count ::
                         ((buildScenarios count w).1.map Event.remoteCall) })
    ∧ (∀ i, i < count →
        ∃ r, (getAIPredictions count w).1.get? i = some r
          ∧ (∀ pr, w.client (w.callIdx + i) (nthScenario w i) = Except.ok pr → r = pr)
          ∧ (∀ e, w.client (w.callIdx + i) (nthScenario w i) = Except.error e → FallbackOk r)) := by
  have hmiss := cacheGet_miss (predictionsCacheKey count) w hcold
  rcases hbs : buildScenarios count { w with events := w.events ++ [Event.batchCall count] }
    with ⟨scens, w2⟩
  have hslen : scens.length = count := by
    have := buildScenarios_length count { w with events := w.events ++ [Event.batchCall count] }
    rw [hbs] at this
    exact this
  have hw2 : w2 = { w with events := w.events ++ [Event.batchCall count],
                           rngIdx := w.rngIdx + 4 * count } := by
    have := buildScenarios_world count { w with events := w.events ++ [Event.batchCall count] }
    rw [hbs] at this
    exact this
  rcases hsm : stMap fetchOne scens w2 with ⟨results, w3⟩
  have hfb : fetchBatches (chunk5 scens) w2 = (results, w3) := by
    rw [fetchBatches_chunk5 scens.length scens le_rfl w2, hsm]
  have hunfold : getAIPredictions count w
      = (results, cacheSet (predictionsCacheKey count) (CacheVal.predictions results) w3) := by
    simp [getAIPredictions, hmiss, hbs, hfb]
  have hrlen : results.length = count := by
    have := stMap_length fetchOne scens w2
    rw [hsm] at this
    simpa [hslen] using this
  have hr2 : RngOk w2 := by rw [hw2]; exact hr
  refine ⟨by rw [hunfold]; exact hrlen, ?_, ?_⟩
  · obtain ⟨k3, hk3⟩ := stMap_fetchOne_world scens w2
    rw [hsm] at hk3
    have hk3' : w3
        = { w2 with rngIdx := k3, callIdx := w2.callIdx + scens.length,
                    events := w2.events ++ scens.map Event.remoteCall } := hk3
    refine ⟨k3, ?_⟩
    rw [hunfold]
    show cacheSet (predictionsCacheKey count) (CacheVal.predictions results) w3
      = cacheSet (predictionsCacheKey count) (CacheVal.predictions results)
          { w with rngIdx := k3, callIdx := w.callIdx + count,
                   events := w.events ++ Event.batchCall count ::
                     ((buildScenarios count w).1.map Event.remoteCall) }
    rw [hk3', hw2]
    have hsval : scens = (buildScenarios count w).1 := by
      have := buildScenarios_val_ext count w
        { w with events := w.events ++ [Event.batchCall count] } rfl rfl rfl
      rw [hbs] at this
      exact this
    apply congrArg
    apply World.ext <;> simp [hsval, hslen, buildScenarios_length]
  · intro i hi
    have hgets : scens.get? i = some (nthScenario w i) := by
      have := buildScenarios_get count { w with events := w.events ++ [Event.batchCall count] } i hi
      rw [hbs] at this
      rw [this, nthScenario_ext i w { w with events := w.events ++ [Event.batchCall count] } rfl rfl rfl]
    obtain ⟨r, hrget, hok, herr⟩ := stMap_fetchOne_get scens w2 hr2 i (nthScenario w i) hgets
    rw [hsm] at hrget
    refine ⟨r, by rw [hunfold]; exact hrget, ?_, ?_⟩
    · intro pr h
      refine hok pr ?_
      rw [hw2]
      exact h
    · intro e h
      refine herr e ?_
      rw [hw2]
      exact h

/-! ### C3 — batch fetch: length, order, per-item fallback isolation -/

/-- **C3.**  For every scenario count and every pattern of per-request
failures (the client oracle is arbitrary, indexed by request number),
an uncached `getAIPredictions count` resolves — the modelled body is
total because every per-request failure is absorbed locally — with
exactly `count` results in scenario order: the `i`-th result answers the
scenario built for offset `i` at request number `callIdx + i`; when that
request succeeds the result is exactly the client's value, and when it
fails the result is a randomized fallback within the fixed domain bounds
(`FallbackOk`).  No failure pattern makes the whole call fail. -/
theorem C3_batch_orchestrator (count : ℕ) (w : World) (hr : RngOk w)
    (hcold : w.cache.find? (fun e => e.1 == predictionsCacheKey count) = none) :
    (getAIPredictions count w).1.length = count
    ∧ (∀ i, i < count →
        ∃ r, (getAIPredictions count w).1.get? i = some r
          ∧ (∀ pr, w.client (w.callIdx + i) (nthScenario w i) = Except.ok pr → r = pr)
          ∧ (∀ e, w.client (w.callIdx + i) (nthScenario w i) = Except.error e → FallbackOk r)) :=
  ⟨(getAIPredictions_cold count w hr hcold).1,
   (getAIPredictions_cold count w hr hcold).2.2⟩

/-- **C3 witness.**  Twelve scenarios against the always-failing base
client: twelve results, and the first one is a bounded fallback. -/
theorem C3_batch_orchestrator_witness :
    (getAIPredictions 12 baseWorld).1.length = 12
    ∧ (∃ r, (getAIPredictions 12 baseWorld).1.get? 0 = some r
        ∧ (∀ pr, baseWorld.client (baseWorld.callIdx + 0) (nthScenario baseWorld 0) = Except.ok pr → r = pr)
        ∧ (∀ e, baseWorld.client (baseWorld.callIdx + 0) (nthScenario baseWorld 0) = Except.error e → FallbackOk r)) :=
  ⟨(C3_batch_orchestrator 12 baseWorld
      (fun _ => ⟨le_refl 0, by norm_num [baseWorld]⟩) rfl).1,
   (C3_batch_orchestrator 12 baseWorld
      (fun _ => ⟨le_refl 0, by norm_num [baseWorld]⟩) rfl).2 0 (by norm_num)⟩

/-! ### Mock generator infrastructure -/

/-- A sequential pass whose step touches only the random cursor leaves
everything else unchanged. -/
theorem stMap_rng_world (f : α → World → β × World)
    (hf : ∀ (a : α) (v : World), ∃ k, (f a v).2 = { v with rngIdx := k }) :
    ∀ (l : List α) (w : World), ∃ k, (stMap f l w).2 = { w with rngIdx := k } := by
  intro l
  induction l with
  | nil => intro w; exact ⟨w.rngIdx, by simp [stMap]⟩
  | cons x xs ih =>
      intro w
      obtain ⟨k₁, hk₁⟩ := hf x w
      obtain ⟨k, hk⟩ := ih (f x w).2
      refine ⟨k, ?_⟩
      simp only [stMap]
      rw [hk, hk₁]

/-- One mock yield row only draws one random value. -/
theorem mockYieldRow_world (i : ℕ) (w : World) :
    ∃ k, (mockYieldRow i w).2 = { w with rngIdx := k } :=
  ⟨w.rngIdx + 1, by simp [mockYieldRow, nextRand]⟩

/-- The mock yield forecast has thirty rows and only draws random
values. -/
theorem generateYieldForecast_spec (w : World) :
    (generateYieldForecast w).1.length = 30
    ∧ ∃ k, (generateYieldForecast w).2 = { w with rngIdx := k } := by
  constructor
  · rw [generateYieldForecast, stMap_length]
    rfl
  · exact stMap_rng_world mockYieldRow mockYieldRow_world (List.range 30) w

/-- The mock price walk produces one row per day index and only draws
random values. -/
theorem mockPriceRows_spec :
    ∀ (l : List ℕ) (st : ℚ × ℚ × ℚ × ℚ) (w : World),
      (mockPriceRows st l w).1.length = l.length
      ∧ ∃ k, (mockPriceRows st l w).2 = { w with rngIdx := k } := by
  intro l
  induction l with
  | nil => intro st w; exact ⟨rfl, ⟨w.rngIdx, by simp [mockPriceRows]⟩⟩
  | cons x xs ih =>
      intro st w
      have hrow : (mockPriceRow st x w).2.2
          = { w with rngIdx := w.rngIdx + 1 + 1 + 1 + 1 } := by
        simp [mockPriceRow, nextRand]
      obtain ⟨hlen, k, hk⟩ := ih (mockPriceRow st x w).2.1 (mockPriceRow st x w).2.2
      constructor
      · simp [mockPriceRows, hlen]
      · refine ⟨k, ?_⟩
        simp only [mockPriceRows]
        rw [hk, hrow]

/-- The mock price forecast has thirty rows and only draws random
values. -/
theorem generatePriceForecast_spec (w : World) :
    (generatePriceForecast w).1.length = 30
    ∧ ∃ k, (generatePriceForecast w).2 = { w with rngIdx := k } := by
  have := mockPriceRows_spec (List.range 30) (850, 320, 150, 45) w
  exact ⟨by rw [generatePriceForecast, this.1]; rfl, this.2⟩

/-! ### C7 — offline mode: mock data, no network -/

/-- A concrete world with the live-predictions flag disabled. -/
def mockWorld : World :=
  { baseWorld with
      config := { USE_REAL_API := false, API_AVAILABLE := true, CACHE_TTL := 5 } }

/-- **C7, counterexample to the claim as stated.**  With live mode
disabled the allocation view is the static fallback, which has four
categories, not the five the claim asserts. -/
theorem C7_mock_mode_cex :
    ¬ ((getAIAllocationData mockWorld).1.length = 5) := by
  decide

/-- **C7 (amended).**  When live mode is disabled (flag off or no
endpoint), every derived-view transformer resolves without any remote
interaction (the event log and the request counter are untouched),
returns the static fallback generator's view — four allocation
categories summing to exactly 100, thirty entries for each forecast —
and caches that value under its key. -/
theorem C7_mock_mode (w : World) (hoff : liveMode w = false) (hc : w.cache = [])
    (hT : 0 ≤ w.config.CACHE_TTL) :
    ((generateAIYieldForecast w).1 = (generateYieldForecast w).1
      ∧ (generateAIYieldForecast w).2.events = w.events
      ∧ (generateAIYieldForecast w).2.callIdx = w.callIdx
      ∧ (generateAIYieldForecast w).1.length = 30
      ∧ (cacheGet "yield_forecast" (generateAIYieldForecast w).2).1
          = some (CacheVal.yieldF (generateAIYieldForecast w).1))
    ∧ ((generateAIPriceForecast w).1 = (generatePriceForecast w).1
      ∧ (generateAIPriceForecast w).2.events = w.events
      ∧ (generateAIPriceForecast w).2.callIdx = w.callIdx
      ∧ (generateAIPriceForecast w).1.length = 30
      ∧ (cacheGet "price_forecast" (generateAIPriceForecast w).2).1
          = some (CacheVal.priceF (generateAIPriceForecast w).1))
    ∧ ((getAIAllocationData w).1 = getCurrentAllocation
      ∧ (getAIAllocationData w).2.events = w.events
      ∧ (getAIAllocationData w).2.callIdx = w.callIdx
      ∧ (getAIAllocationData w).1.length = 4
      ∧ ((getAIAllocationData w).1.map (fun r => r.value)).sum = 100
      ∧ (cacheGet "allocation_data" (getAIAllocationData w).2).1
          = some (CacheVal.alloc (getAIAllocationData w).1))
    ∧ ((getAIKPISummary w).1 = getKPISummary
      ∧ (getAIKPISummary w).2.events = w.events
      ∧ (getAIKPISummary w).2.callIdx = w.callIdx
      ∧ (cacheGet "kpi_summary" (getAIKPISummary w).2).1
          = some (CacheVal.kpi (getAIKPISummary w).1))
    ∧ ((getAIOptimizationScenarios w).1 = getOptimizationScenarios
      ∧ (getAIOptimizationScenarios w).2.events = w.events
      ∧ (getAIOptimizationScenarios w).2.callIdx = w.callIdx
      ∧ (cacheGet "optimization_scenarios" (getAIOptimizationScenarios w).2).1
          = some (CacheVal.scen (getAIOptimizationScenarios w).1)) := by
  have hmiss : ∀ key, cacheGet key w = (none, w) := fun key => cacheGet_nil key w hc
  refine ⟨?_, ?_, ?_, ?_, ?_⟩
  · rcases hm : generateYieldForecast w with ⟨mockData, wm⟩
    obtain ⟨hlen, k, hk⟩ := generateYieldForecast_spec w
    rw [hm] at hlen hk
    have hlen' : mockData.length = 30 := hlen
    have hk' : wm = { w with rngIdx := k } := hk
    have hy : generateAIYieldForecast w
        = (mockData, cacheSet "yield_forecast" (CacheVal.yieldF mockData) wm) := by
      simp [generateAIYieldForecast, hmiss, hoff, hm]
    refine ⟨by rw [hy], ?_, ?_, ?_, ?_⟩
    · rw [hy]; simp [cacheSet, hk']
    · rw [hy]; simp [cacheSet, hk']
    · rw [hy]; exact hlen'
    · rw [hy,
        cacheGet_set_fresh "yield_forecast" (CacheVal.yieldF mockData) wm (by rw [hk']; exact hT)]
  · rcases hm : generatePriceForecast w with ⟨mockData, wm⟩
    obtain ⟨hlen, k, hk⟩ := generatePriceForecast_spec w
    rw [hm] at hlen hk
    have hlen' : mockData.length = 30 := hlen
    have hk' : wm = { w with rngIdx := k } := hk
    have hy : generateAIPriceForecast w
        = (mockData, cacheSet "price_forecast" (CacheVal.priceF mockData) wm) := by
      simp [generateAIPriceForecast, hmiss, hoff, hm]
    refine ⟨by rw [hy], ?_, ?_, ?_, ?_⟩
    · rw [hy]; simp [cacheSet, hk']
    · rw [hy]; simp [cacheSet, hk']
    · rw [hy]; exact hlen'
    · rw [hy,
        cacheGet_set_fresh "price_forecast" (CacheVal.priceF mockData) wm (by rw [hk']; exact hT)]
  · have hy : getAIAllocationData w
        = (getCurrentAllocation, cacheSet "allocation_data" (CacheVal.alloc getCurrentAllocation) w) := by
      simp [getAIAllocationData, hmiss, hoff]
    refine ⟨by rw [hy], ?_, ?_, ?_, ?_, ?_⟩
    · rw [hy]; simp [cacheSet]
    · rw [hy]; simp [cacheSet]
    · rw [hy]
      show getCurrentAllocation.length = 4
      decide
    · rw [hy]
      show (getCurrentAllocation.map (fun r => r.value)).sum = 100
      decide
    · rw [hy, cacheGet_set_fresh "allocation_data" (CacheVal.alloc getCurrentAllocation) w hT]
  · have hy : getAIKPISummary w
        = (getKPISummary, cacheSet "kpi_summary" (CacheVal.kpi getKPISummary) w) := by
      simp [getAIKPISummary, hmiss, hoff]
    refine ⟨by rw [hy], ?_, ?_, ?_⟩
    · rw [hy]; simp [cacheSet]
    · rw [hy]; simp [cacheSet]
    · rw [hy, cacheGet_set_fresh "kpi_summary" (CacheVal.kpi getKPISummary) w hT]
  · have hy : getAIOptimizationScenarios w
        = (getOptimizationScenarios,
           cacheSet "optimization_scenarios" (CacheVal.scen getOptimizationScenarios) w) := by
      simp [getAIOptimizationScenarios, hmiss, hoff]
    refine ⟨by rw [hy], ?_, ?_, ?_⟩
    · rw [hy]; simp [cacheSet]
    · rw [hy]; simp [cacheSet]
    · rw [hy,
        cacheGet_set_fresh "optimization_scenarios" (CacheVal.scen getOptimizationScenarios) w hT]

/-- **C7 witness.**  The allocation bundle of the amended statement at a
concrete offline world: static fallback with four categories summing to
100, no remote interaction, and the value cached. -/
theorem C7_mock_mode_witness :
    (getAIAllocationData mockWorld).1 = getCurrentAllocation
    ∧ (getAIAllocationData mockWorld).2.events = mockWorld.events
    ∧ (getAIAllocationData mockWorld).2.callIdx = mockWorld.callIdx
    ∧ (getAIAllocationData mockWorld).1.length = 4
    ∧ ((getAIAllocationData mockWorld).1.map (fun r => r.value)).sum = 100
    ∧ (cacheGet "allocation_data" (getAIAllocationData mockWorld).2).1
        = some (CacheVal.alloc (getAIAllocationData mockWorld).1) :=
  (C7_mock_mode mockWorld rfl rfl (by norm_num [mockWorld])).2.2.1

/-! ### Transformer cold-run shapes (for idempotence) -/

/-- A cold run of the yield transformer ends by caching its result under
its key, leaving the clock and configuration untouched. -/
theorem generateAIYieldForecast_cold (w : World) (hr : RngOk w) (hc : w.cache = []) :
    ∃ v w₂, generateAIYieldForecast w = (v, cacheSet "yield_forecast" (CacheVal.yieldF v) w₂)
      ∧ w₂.config = w.config ∧ w₂.now = w.now := by
  have hmiss := cacheGet_nil "yield_forecast" w hc
  by_cases hl : liveMode w
  · rcases hgp : getAIPredictions 30 w with ⟨preds, w'⟩
    obtain ⟨_, ⟨k, hk⟩, _⟩ := getAIPredictions_cold 30 w hr (by rw [hc]; rfl)
    rw [hgp] at hk
    have hk' : w' = cacheSet (predictionsCacheKey 30) (CacheVal.predictions preds)
        { w with rngIdx := k, callIdx := w.callIdx + 30,
                 events := w.events ++ Event.batchCall 30 ::
                   ((buildScenarios 30 w).1.map Event.remoteCall) } := hk
    refine ⟨yieldFromPreds w'.today preds, w', ?_, ?_, ?_⟩
    · simp [generateAIYieldForecast, hmiss, hl, hgp]
    · rw [hk']; rfl
    · rw [hk']; rfl
  · rcases hm : generateYieldForecast w with ⟨mockData, wm⟩
    obtain ⟨_, k, hk⟩ := generateYieldForecast_spec w
    rw [hm] at hk
    have hk' : wm = { w with rngIdx := k } := hk
    refine ⟨mockData, wm, ?_, by rw [hk'], by rw [hk']⟩
    simp [generateAIYieldForecast, hmiss, hl, hm]

/-- A cold run of the price transformer ends by caching its result under
its key, leaving the clock and configuration untouched. -/
theorem generateAIPriceForecast_cold (w : World) (hr : RngOk w) (hc : w.cache = []) :
    ∃ v w₂, generateAIPriceForecast w = (v, cacheSet "price_forecast" (CacheVal.priceF v) w₂)
      ∧ w₂.config = w.config ∧ w₂.now = w.now := by
  have hmiss := cacheGet_nil "price_forecast" w hc
  by_cases hl : liveMode w
  · rcases hgp : getAIPredictions 30 w with ⟨preds, w'⟩
    obtain ⟨_, ⟨k, hk⟩, _⟩ := getAIPredictions_cold 30 w hr (by rw [hc]; rfl)
    rw [hgp] at hk
    have hk' : w' = cacheSet (predictionsCacheKey 30) (CacheVal.predictions preds)
        { w with rngIdx := k, callIdx := w.callIdx + 30,
                 events := w.events ++ Event.batchCall 30 ::
                   ((buildScenarios 30 w).1.map Event.remoteCall) } := hk
    rcases hpf : priceFromPreds preds w' with ⟨rows, w''⟩
    have hw'' : w'' = (priceFromPreds preds w').2 := by rw [hpf]
    obtain ⟨k₂, hk₂⟩ := stMap_rng_world (priceRowFromPred w'.today)
      (fun a v => ⟨v.rngIdx + 1, by simp [priceRowFromPred, nextRand]⟩) preds.enum w'
    refine ⟨rows, w'', ?_, ?_, ?_⟩
    · simp [generateAIPriceForecast, hmiss, hl, hgp, hpf]
    · rw [hw'']
      show (priceFromPreds preds w').2.config = w.config
      rw [priceFromPreds, hk₂, hk']
      rfl
    · rw [hw'']
      show (priceFromPreds preds w').2.now = w.now
      rw [priceFromPreds, hk₂, hk']
      rfl
  · rcases hm : generatePriceForecast w with ⟨mockData, wm⟩
    obtain ⟨_, k, hk⟩ := generatePriceForecast_spec w
    rw [hm] at hk
    have hk' : wm = { w with rngIdx := k } := hk
    refine ⟨mockData, wm, ?_, by rw [hk'], by rw [hk']⟩
    simp [generateAIPriceForecast, hmiss, hl, hm]

/-- The remote client call advances only the request counter and the
event log. -/
theorem getPrediction_world (i : PredictionInput) (w : World) :
    (getPrediction i w).2
      = { w with callIdx := w.callIdx + 1, events := w.events ++ [Event.remoteCall i] } := rfl

/-- A cold run of the allocation transformer ends by caching its result
under its key, leaving the clock and configuration untouched. -/
theorem getAIAllocationData_cold (w : World) (hr : RngOk w) (hc : w.cache = []) :
    ∃ v w₂, getAIAllocationData w = (v, cacheSet "allocation_data" (CacheVal.alloc v) w₂)
      ∧ w₂.config = w.config ∧ w₂.now = w.now := by
  have hmiss := cacheGet_nil "allocation_data" w hc
  by_cases hl : liveMode w
  · rcases hgp : getAIPredictions 1 w with ⟨preds, w'⟩
    obtain ⟨_, ⟨k, hk⟩, _⟩ := getAIPredictions_cold 1 w hr (by rw [hc]; rfl)
    rw [hgp] at hk
    have hk' : w' = cacheSet (predictionsCacheKey 1) (CacheVal.predictions preds)
        { w with rngIdx := k, callIdx := w.callIdx + 1,
                 events := w.events ++ Event.batchCall 1 ::
                   ((buildScenarios 1 w).1.map Event.remoteCall) } := hk
    match preds with
    | [] =>
        refine ⟨getCurrentAllocation, w', ?_, by rw [hk']; rfl, by rw [hk']; rfl⟩
        simp [getAIAllocationData, hmiss, hl, hgp]
    | p :: rest =>
        refine ⟨allocationFromPrediction p, w', ?_, by rw [hk']; rfl, by rw [hk']; rfl⟩
        simp [getAIAllocationData, hmiss, hl, hgp]
  · refine ⟨getCurrentAllocation, w, ?_, rfl, rfl⟩
    simp [getAIAllocationData, hmiss, hl]

/-- A cold run of the KPI transformer ends by caching its result under
its key, leaving the clock and configuration untouched. -/
theorem getAIKPISummary_cold (w : World) (hr : RngOk w) (hc : w.cache = []) :
    ∃ v w₂, getAIKPISummary w = (v, cacheSet "kpi_summary" (CacheVal.kpi v) w₂)
      ∧ w₂.config = w.config ∧ w₂.now = w.now := by
  have hmiss := cacheGet_nil "kpi_summary" w hc
  by_cases hl : liveMode w
  · rcases hgp : getAIPredictions 5 w with ⟨preds, w'⟩
    obtain ⟨_, ⟨k, hk⟩, _⟩ := getAIPredictions_cold 5 w hr (by rw [hc]; rfl)
    rw [hgp] at hk
    have hk' : w' = cacheSet (predictionsCacheKey 5) (CacheVal.predictions preds)
        { w with rngIdx := k, callIdx := w.callIdx + 5,
                 events := w.events ++ Event.batchCall 5 ::
                   ((buildScenarios 5 w).1.map Event.remoteCall) } := hk
    match hkpi : kpiFromPreds preds with
    | none =>
        refine ⟨getKPISummary, w', ?_, by rw [hk']; rfl, by rw [hk']; rfl⟩
        simp [getAIKPISummary, hmiss, hl, hgp, hkpi]
    | some summary =>
        refine ⟨summary, w', ?_, by rw [hk']; rfl, by rw [hk']; rfl⟩
        simp [getAIKPISummary, hmiss, hl, hgp, hkpi]
  · refine ⟨getKPISummary, w, ?_, rfl, rfl⟩
    simp [getAIKPISummary, hmiss, hl]

/-- A cold run of the optimization-scenarios transformer ends by caching
its result under its key, leaving the clock and configuration
untouched. -/
theorem getAIOptimizationScenarios_cold (w : World) (hc : w.cache = []) :
    ∃ v w₂, getAIOptimizationScenarios w
        = (v, cacheSet "optimization_scenarios" (CacheVal.scen v) w₂)
      ∧ w₂.config = w.config ∧ w₂.now = w.now := by
  have hmiss := cacheGet_nil "optimization_scenarios" w hc
  by_cases hl : liveMode w
  · rcases h1 : createInputScenario maxRevInput 0 w with ⟨in1, wA⟩
    have hwA : wA = { w with rngIdx := w.rngIdx + 4 } := by
      have h := congrArg Prod.snd h1
      rw [createInputScenario_world] at h
      exact h.symm
    rcases hp1 : getPrediction in1 wA with ⟨res1, wB⟩
    have hwB : wB
        = { wA with callIdx := wA.callIdx + 1, events := wA.events ++ [Event.remoteCall in1] } :=
      (congrArg Prod.snd hp1).symm
    cases res1 with
    | error e =>
        refine ⟨getOptimizationScenarios, wB, ?_, by rw [hwB, hwA], by rw [hwB, hwA]⟩
        simp [getAIOptimizationScenarios, hmiss, hl, h1, hp1]
    | ok p1 =>
        rcases h2 : createInputScenario balancedInput 0 wB with ⟨in2, wC⟩
        have hwC : wC = { wB with rngIdx := wB.rngIdx + 4 } := by
          have h := congrArg Prod.snd h2
          rw [createInputScenario_world] at h
          exact h.symm
        rcases hp2 : getPrediction in2 wC with ⟨res2, wD⟩
        have hwD : wD
            = { wC with callIdx := wC.callIdx + 1, events := wC.events ++ [Event.remoteCall in2] } :=
          (congrArg Prod.snd hp2).symm
        cases res2 with
        | error e =>
            refine ⟨getOptimizationScenarios, wD, ?_,
              by rw [hwD, hwC, hwB, hwA], by rw [hwD, hwC, hwB, hwA]⟩
            simp [getAIOptimizationScenarios, hmiss, hl, h1, hp1, h2, hp2]
        | ok p2 =>
            rcases h3 : createInputScenario sustainInput 0 wD with ⟨in3, wE⟩
            have hwE : wE = { wD with rngIdx := wD.rngIdx + 4 } := by
              have h := congrArg Prod.snd h3
              rw [createInputScenario_world] at h
              exact h.symm
            rcases hp3 : getPrediction in3 wE with ⟨res3, wF⟩
            have hwF : wF
                = { wE with callIdx := wE.callIdx + 1, events := wE.events ++ [Event.remoteCall in3] } :=
              (congrArg Prod.snd hp3).symm
            cases res3 with
            | error e =>
                refine ⟨getOptimizationScenarios, wF, ?_,
                  by rw [hwF, hwE, hwD, hwC, hwB, hwA], by rw [hwF, hwE, hwD, hwC, hwB, hwA]⟩
                simp [getAIOptimizationScenarios, hmiss, hl, h1, hp1, h2, hp2, h3, hp3]
            | ok p3 =>
                refine ⟨[mkScenario "Max Revenue" (scenarioAllocation p1 55 25 12 8),
                         mkScenario "Balanced" (scenarioAllocation p2 35 28 22 15),
                         mkScenario "Min Emissions" (scenarioAllocation p3 20 15 35 30)], wF, ?_,
                  by rw [hwF, hwE, hwD, hwC, hwB, hwA], by rw [hwF, hwE, hwD, hwC, hwB, hwA]⟩
                simp [getAIOptimizationScenarios, hmiss, hl, h1, hp1, h2, hp2, h3, hp3]
  · refine ⟨getOptimizationScenarios, w, ?_, rfl, rfl⟩
    simp [getAIOptimizationScenarios, hmiss, hl]

/-! ### C8 — idempotence within the TTL window -/

/-- The five derived-view transformers. -/
inductive ViewKind where
  | yieldV | priceV | allocV | kpiV | scenV
  deriving DecidableEq, Repr

/-- Each transformer's fixed cache key. -/
def viewKey : ViewKind → String
  | ViewKind.yieldV => "yield_forecast"
  | ViewKind.priceV => "price_forecast"
  | ViewKind.allocV => "allocation_data"
  | ViewKind.kpiV => "kpi_summary"
  | ViewKind.scenV => "optimization_scenarios"

/-- Run one transformer, with its result wrapped in the cache's value
sum so the five can be quantified over uniformly. -/
def runView : ViewKind → World → CacheVal × World
  | ViewKind.yieldV, w =>
      let r := generateAIYieldForecast w
      (CacheVal.yieldF r.1, r.2)
  | ViewKind.priceV, w =>
      let r := generateAIPriceForecast w
      (CacheVal.priceF r.1, r.2)
  | ViewKind.allocV, w =>
      let r := getAIAllocationData w
      (CacheVal.alloc r.1, r.2)
  | ViewKind.kpiV, w =>
      let r := getAIKPISummary w
      (CacheVal.kpi r.1, r.2)
  | ViewKind.scenV, w =>
      let r := getAIOptimizationScenarios w
      (CacheVal.scen r.1, r.2)

/-- The cached value stored under a transformer's key has that
transformer's constructor. -/
def kindMatches : ViewKind → CacheVal → Prop
  | ViewKind.yieldV, CacheVal.yieldF _ => True
  | ViewKind.priceV, CacheVal.priceF _ => True
  | ViewKind.allocV, CacheVal.alloc _ => True
  | ViewKind.kpiV, CacheVal.kpi _ => True
  | ViewKind.scenV, CacheVal.scen _ => True
  | _, _ => False

/-- A cold transformer run caches its own (matching) value under its own
key and leaves clock and configuration untouched. -/
theorem runView_cold (k : ViewKind) (w : World) (hr : RngOk w) (hc : w.cache = []) :
    ∃ v w₂, runView k w = (v, cacheSet (viewKey k) v w₂)
      ∧ w₂.config = w.config ∧ w₂.now = w.now ∧ kindMatches k v := by
  cases k
  case yieldV =>
      obtain ⟨v, w₂, h, h1, h2⟩ := generateAIYieldForecast_cold w hr hc
      exact ⟨CacheVal.yieldF v, w₂, by simp [runView, viewKey, h], h1, h2, trivial⟩
  case priceV =>
      obtain ⟨v, w₂, h, h1, h2⟩ := generateAIPriceForecast_cold w hr hc
      exact ⟨CacheVal.priceF v, w₂, by simp [runView, viewKey, h], h1, h2, trivial⟩
  case allocV =>
      obtain ⟨v, w₂, h, h1, h2⟩ := getAIAllocationData_cold w hr hc
      exact ⟨CacheVal.alloc v, w₂, by simp [runView, viewKey, h], h1, h2, trivial⟩
  case kpiV =>
      obtain ⟨v, w₂, h, h1, h2⟩ := getAIKPISummary_cold w hr hc
      exact ⟨CacheVal.kpi v, w₂, by simp [runView, viewKey, h], h1, h2, trivial⟩
  case scenV =>
      obtain ⟨v, w₂, h, h1, h2⟩ := getAIOptimizationScenarios_cold w hc
      exact ⟨CacheVal.scen v, w₂, by simp [runView, viewKey, h], h1, h2, trivial⟩

/-- A transformer run that finds a fresh matching entry at the head of
the cache returns it and leaves the world untouched. -/
theorem runView_hit (k : ViewKind) (v : CacheVal) (hm : kindMatches k v) (ts : ℚ)
    (rest : List (String × CacheEntry)) (w : World)
    (hhead : w.cache = (viewKey k, ⟨v, ts⟩) :: rest)
    (hfresh : ¬ (w.now - ts > w.config.CACHE_TTL)) :
    runView k w = (v, w) := by
  have hget := cacheGet_cons_fresh (viewKey k) ⟨v, ts⟩ rest w hhead hfresh
  cases k <;> cases v <;> first
    | exact absurd hm id
    | simp [runView, viewKey, generateAIYieldForecast, generateAIPriceForecast,
        getAIAllocationData, getAIKPISummary, getAIOptimizationScenarios,
        CacheVal.asYieldF, CacheVal.asPriceF, CacheVal.asAlloc, CacheVal.asKPI,
        CacheVal.asScen, hget] at hget ⊢

/-- **C8.**  Calling any one derived-view transformer twice within the
TTL window with no intervening `clear()` — the first call from a cold
cache, the second after `t ≤ TTL` has elapsed — issues exactly one
underlying Remote Client call sequence: the second call is a cache hit
that returns the identical value, records no events, and issues no
further requests. -/
theorem C8_transformer_idempotent (k : ViewKind) (w : World) (t : ℚ) (hr : RngOk w)
    (hc : w.cache = []) (h0 : 0 ≤ t) (hT : t ≤ w.config.CACHE_TTL) :
    (runView k { (runView k w).2 with now := (runView k w).2.now + t }).1 = (runView k w).1
    ∧ (runView k { (runView k w).2 with now := (runView k w).2.now + t }).2.events
        = (runView k w).2.events
    ∧ (runView k { (runView k w).2 with now := (runView k w).2.now + t }).2.callIdx
        = (runView k w).2.callIdx := by
  obtain ⟨v, w₂, hrun, hcfg, hnow, hm⟩ := runView_cold k w hr hc
  have hsecond := runView_hit k v hm w₂.now
      (w₂.cache.filter (fun e => ¬ (e.1 = viewKey k)))
      { (runView k w).2 with now := (runView k w).2.now + t }
      (by rw [hrun]; rfl)
      (by rw [hrun]
          show ¬ (w₂.now + t - w₂.now > w₂.config.CACHE_TTL)
          rw [hcfg]
          have heq : w₂.now + t - w₂.now = t := by ring
          rw [heq]
          simp only [gt_iff_lt, not_lt]
          exact hT)
  exact ⟨by rw [hsecond, hrun], by rw [hsecond], by rw [hsecond]⟩

/-- **C8 witness.**  The yield transformer run twice three time units
apart (TTL 5) in the base world. -/
theorem C8_transformer_idempotent_witness :
    (runView ViewKind.yieldV
        { (runView ViewKind.yieldV baseWorld).2 with
            now := (runView ViewKind.yieldV baseWorld).2.now + 3 }).1
      = (runView ViewKind.yieldV baseWorld).1
    ∧ (runView ViewKind.yieldV
        { (runView ViewKind.yieldV baseWorld).2 with
            now := (runView ViewKind.yieldV baseWorld).2.now + 3 }).2.events
      = (runView ViewKind.yieldV baseWorld).2.events
    ∧ (runView ViewKind.yieldV
        { (runView ViewKind.yieldV baseWorld).2 with
            now := (runView ViewKind.yieldV baseWorld).2.now + 3 }).2.callIdx
      = (runView ViewKind.yieldV baseWorld).2.callIdx :=
  C8_transformer_idempotent ViewKind.yieldV baseWorld 3
    (fun _ => ⟨le_refl 0, by norm_num [baseWorld]⟩) rfl (by norm_num)
    (by norm_num [baseWorld])

/-! ### C4 — scenario counts per view -/

/-- A concrete live world whose remote client always succeeds. -/
def okWorld : World := { baseWorld with client := okClient }

/-- **C4, counterexample to the claim as stated.**  The
optimization-scenarios transformer never invokes the Batch Orchestrator:
a live run against an always-succeeding client logs three direct remote
calls and no `batchCall` event. -/
theorem C4_scenario_counts_cex :
    ((getAIOptimizationScenarios okWorld).2.events.filter
        (fun e => match e with
          | Event.batchCall _ => true
          | Event.remoteCall _ => false)) = []
    ∧ (getAIOptimizationScenarios okWorld).2.events.length = 3 := by
  constructor
  · decide
  · decide

/-- **C4 (amended).**  In live mode from a cold cache, each derived-view
transformer requests exactly the minimum number of scenarios its view
needs — one batch of 1 for allocation, 5 for the KPI trend, 30 for each
forecast (one remote request per scenario) — while the
optimization-scenarios transformer calls the Remote Prediction Client
directly (not via the Batch Orchestrator) for a fixed 3-scenario set
whose presets are pairwise distinct (their carbon-tax values are 8, 12
and 18). -/
theorem C4_scenario_counts (w : World) (hr : RngOk w) (hc : w.cache = [])
    (hl : liveMode w = true)
    (hok : ∀ n i, ∃ r, w.client n i = Except.ok r) :
    (∃ S : List PredictionInput, S.length = 30
      ∧ (generateAIYieldForecast w).2.events
          = w.events ++ Event.batchCall 30 :: S.map Event.remoteCall)
    ∧ (∃ S : List PredictionInput, S.length = 30
      ∧ (generateAIPriceForecast w).2.events
          = w.events ++ Event.batchCall 30 :: S.map Event.remoteCall)
    ∧ (∃ S : List PredictionInput, S.length = 1
      ∧ (getAIAllocationData w).2.events
          = w.events ++ Event.batchCall 1 :: S.map Event.remoteCall)
    ∧ (∃ S : List PredictionInput, S.length = 5
      ∧ (getAIKPISummary w).2.events
          = w.events ++ Event.batchCall 5 :: S.map Event.remoteCall)
    ∧ (∃ i1 i2 i3 : PredictionInput,
        (getAIOptimizationScenarios w).2.events
          = w.events ++ [Event.remoteCall i1, Event.remoteCall i2, Event.remoteCall i3]
        ∧ i1.carbon_tax = 8 ∧ i2.carbon_tax = 12 ∧ i3.carbon_tax = 18
        ∧ i1 ≠ i2 ∧ i1 ≠ i3 ∧ i2 ≠ i3) := by
  have hpcold : ∀ n, w.cache.find? (fun e => e.1 == predictionsCacheKey n) = none := by
    intro n
    rw [hc]
    rfl
  refine ⟨?_, ?_, ?_, ?_, ?_⟩
  · rcases hgp : getAIPredictions 30 w with ⟨preds, w'⟩
    obtain ⟨_, ⟨k, hk⟩, _⟩ := getAIPredictions_cold 30 w hr (hpcold 30)
    rw [hgp] at hk
    have hk' : w' = cacheSet (predictionsCacheKey 30) (CacheVal.predictions preds)
        { w with rngIdx := k, callIdx := w.callIdx + 30,
                 events := w.events ++ Event.batchCall 30 ::
                   ((buildScenarios 30 w).1.map Event.remoteCall) } := hk
    refine ⟨(buildScenarios 30 w).1, buildScenarios_length 30 w, ?_⟩
    have hy : generateAIYieldForecast w
        = (yieldFromPreds w'.today preds,
           cacheSet "yield_forecast" (CacheVal.yieldF (yieldFromPreds w'.today preds)) w') := by
      simp [generateAIYieldForecast, cacheGet_nil _ _ hc, hl, hgp]
    rw [hy]
    show w'.events = _
    rw [hk']
    rfl
  · rcases hgp : getAIPredictions 30 w with ⟨preds, w'⟩
    obtain ⟨_, ⟨k, hk⟩, _⟩ := getAIPredictions_cold 30 w hr (hpcold 30)
    rw [hgp] at hk
    have hk' : w' = cacheSet (predictionsCacheKey 30) (CacheVal.predictions preds)
        { w with rngIdx := k, callIdx := w.callIdx + 30,
                 events := w.events ++ Event.batchCall 30 ::
                   ((buildScenarios 30 w).1.map Event.remoteCall) } := hk
    refine ⟨(buildScenarios 30 w).1, buildScenarios_length 30 w, ?_⟩
    rcases hpf : priceFromPreds preds w' with ⟨rows, w''⟩
    obtain ⟨k₂, hk₂⟩ := stMap_rng_world (priceRowFromPred w'.today)
      (fun a v => ⟨v.rngIdx + 1, by simp [priceRowFromPred, nextRand]⟩) preds.enum w'
    have hw'' : w'' = { w' with rngIdx := k₂ } := by
      have h := congrArg Prod.snd hpf
      rw [show (priceFromPreds preds w').2 = { w' with rngIdx := k₂ } from hk₂] at h
      exact h.symm
    have hy : generateAIPriceForecast w
        = (rows, cacheSet "price_forecast" (CacheVal.priceF rows) w'') := by
      simp [generateAIPriceForecast, cacheGet_nil _ _ hc, hl, hgp, hpf]
    rw [hy]
    show w''.events = _
    rw [hw'', hk']
    rfl
  · rcases hgp : getAIPredictions 1 w with ⟨preds, w'⟩
    obtain ⟨hlen, ⟨k, hk⟩, _⟩ := getAIPredictions_cold 1 w hr (hpcold 1)
    rw [hgp] at hlen hk
    have hlen' : preds.length = 1 := hlen
    have hk' : w' = cacheSet (predictionsCacheKey 1) (CacheVal.predictions preds)
        { w with rngIdx := k, callIdx := w.callIdx + 1,
                 events := w.events ++ Event.batchCall 1 ::
                   ((buildScenarios 1 w).1.map Event.remoteCall) } := hk
    refine ⟨(buildScenarios 1 w).1, buildScenarios_length 1 w, ?_⟩
    match preds, hlen' with
    | [p], _ =>
        have hy : getAIAllocationData w
            = (allocationFromPrediction p,
               cacheSet "allocation_data" (CacheVal.alloc (allocationFromPrediction p)) w') := by
          simp [getAIAllocationData, cacheGet_nil _ _ hc, hl, hgp]
        rw [hy]
        show w'.events = _
        rw [hk']
        rfl
  · rcases hgp : getAIPredictions 5 w with ⟨preds, w'⟩
    obtain ⟨_, ⟨k, hk⟩, _⟩ := getAIPredictions_cold 5 w hr (hpcold 5)
    rw [hgp] at hk
    have hk' : w' = cacheSet (predictionsCacheKey 5) (CacheVal.predictions preds)
        { w with rngIdx := k, callIdx := w.callIdx + 5,
                 events := w.events ++ Event.batchCall 5 ::
                   ((buildScenarios 5 w).1.map Event.remoteCall) } := hk
    refine ⟨(buildScenarios 5 w).1, buildScenarios_length 5 w, ?_⟩
    match hkpi : kpiFromPreds preds with
    | none =>
        have hy : getAIKPISummary w
            = (getKPISummary, cacheSet "kpi_summary" (CacheVal.kpi getKPISummary) w') := by
          simp [getAIKPISummary, cacheGet_nil _ _ hc, hl, hgp, hkpi]
        rw [hy]
        show w'.events = _
        rw [hk']
        rfl
    | some summary =>
        have hy : getAIKPISummary w
            = (summary, cacheSet "kpi_summary" (CacheVal.kpi summary) w') := by
          simp [getAIKPISummary, cacheGet_nil _ _ hc, hl, hgp, hkpi]
        rw [hy]
        show w'.events = _
        rw [hk']
        rfl
  · rcases h1 : createInputScenario maxRevInput 0 w with ⟨in1, wA⟩
    have hin1 : in1.carbon_tax = 8 := by
      have h := congrArg (fun p => (Prod.fst p).carbon_tax) h1
      simp only at h
      rw [← h]
      simp [createInputScenario, mergeBase, maxRevInput, nextRand]
    have hwA : wA = { w with rngIdx := w.rngIdx + 4 } := by
      have h := congrArg Prod.snd h1
      rw [createInputScenario_world] at h
      exact h.symm
    subst hwA
    obtain ⟨p1, hc1⟩ := hok w.callIdx in1
    have hp1 : getPrediction in1 { w with rngIdx := w.rngIdx + 4 }
        = (Except.ok p1,
           { w with rngIdx := w.rngIdx + 4, callIdx := w.callIdx + 1,
                    events := w.events ++ [Event.remoteCall in1] }) := by
      simp [getPrediction, hc1]
    rcases h2 : createInputScenario balancedInput 0
        { w with rngIdx := w.rngIdx + 4, callIdx := w.callIdx + 1,
                 events := w.events ++ [Event.remoteCall in1] } with ⟨in2, wC⟩
    have hin2 : in2.carbon_tax = 12 := by
      have h := congrArg (fun p => (Prod.fst p).carbon_tax) h2
      simp only at h
      rw [← h]
      simp [createInputScenario, mergeBase, balancedInput, nextRand]
    have hwC : wC
        = { w with rngIdx := w.rngIdx + 4 + 4, callIdx := w.callIdx + 1,
                   events := w.events ++ [Event.remoteCall in1] } := by
      have h := congrArg Prod.snd h2
      rw [createInputScenario_world] at h
      exact h.symm
    subst hwC
    obtain ⟨p2, hc2⟩ := hok (w.callIdx + 1) in2
    have hp2 : getPrediction in2
        { w with rngIdx := w.rngIdx + 4 + 4, callIdx := w.callIdx + 1,
                 events := w.events ++ [Event.remoteCall in1] }
        = (Except.ok p2,
           { w with rngIdx := w.rngIdx + 4 + 4, callIdx := w.callIdx + 1 + 1,
                    events := w.events ++ [Event.remoteCall in1, Event.remoteCall in2] }) := by
      simp [getPrediction, hc2]
    rcases h3 : createInputScenario sustainInput 0
        { w with rngIdx := w.rngIdx + 4 + 4, callIdx := w.callIdx + 1 + 1,
                 events := w.events ++ [Event.remoteCall in1, Event.remoteCall in2] }
      with ⟨in3, wE⟩
    have hin3 : in3.carbon_tax = 18 := by
      have h := congrArg (fun p => (Prod.fst p).carbon_tax) h3
      simp only at h
      rw [← h]
      simp [createInputScenario, mergeBase, sustainInput, nextRand]
    have hwE : wE
        = { w with rngIdx := w.rngIdx + 4 + 4 + 4, callIdx := w.callIdx + 1 + 1,
                   events := w.events ++ [Event.remoteCall in1, Event.remoteCall in2] } := by
      have h := congrArg Prod.snd h3
      rw [createInputScenario_world] at h
      exact h.symm
    subst hwE
    obtain ⟨p3, hc3⟩ := hok (w.callIdx + 1 + 1) in3
    have hp3 : getPrediction in3
        { w with rngIdx := w.rngIdx + 4 + 4 + 4, callIdx := w.callIdx + 1 + 1,
                 events := w.events ++ [Event.remoteCall in1, Event.remoteCall in2] }
        = (Except.ok p3,
           { w with rngIdx := w.rngIdx + 4 + 4 + 4, callIdx := w.callIdx + 1 + 1 + 1,
                    events := w.events ++ [Event.remoteCall in1, Event.remoteCall in2,
                      Event.remoteCall in3] }) := by
      simp [getPrediction, hc3]
    have hrun : getAIOptimizationScenarios w
        = ([mkScenario "Max Revenue" (scenarioAllocation p1 55 25 12 8),
            mkScenario "Balanced" (scenarioAllocation p2 35 28 22 15),
            mkScenario "Min Emissions" (scenarioAllocation p3 20 15 35 30)],
           cacheSet "optimization_scenarios"
             (CacheVal.scen
               [mkScenario "Max Revenue" (scenarioAllocation p1 55 25 12 8),
                mkScenario "Balanced" (scenarioAllocation p2 35 28 22 15),
                mkScenario "Min Emissions" (scenarioAllocation p3 20 15 35 30)])
             { w with rngIdx := w.rngIdx + 4 + 4 + 4, callIdx := w.callIdx + 1 + 1 + 1,
                      events := w.events ++ [Event.remoteCall in1, Event.remoteCall in2,
                        Event.remoteCall in3] }) := by
      simp [getAIOptimizationScenarios, cacheGet_nil _ _ hc, hl, h1, hp1, h2, hp2, h3, hp3]
    refine ⟨in1, in2, in3, ?_, hin1, hin2, hin3, ?_, ?_, ?_⟩
    · rw [hrun]
      rfl
    · intro heq
      rw [heq, hin2] at hin1
      norm_num at hin1
    · intro heq
      rw [heq, hin3] at hin1
      norm_num at hin1
    · intro heq
      rw [heq, hin3] at hin2
      norm_num at hin2

/-- **C4 witness.**  The yield and optimization bundles of the amended
statement at a concrete live world with an always-succeeding client. -/
theorem C4_scenario_counts_witness :
    (∃ S : List PredictionInput, S.length = 30
      ∧ (generateAIYieldForecast okWorld).2.events
          = okWorld.events ++ Event.batchCall 30 :: S.map Event.remoteCall)
    ∧ (∃ i1 i2 i3 : PredictionInput,
        (getAIOptimizationScenarios okWorld).2.events
          = okWorld.events ++ [Event.remoteCall i1, Event.remoteCall i2, Event.remoteCall i3]
        ∧ i1.carbon_tax = 8 ∧ i2.carbon_tax = 12 ∧ i3.carbon_tax = 18
        ∧ i1 ≠ i2 ∧ i1 ≠ i3 ∧ i2 ≠ i3) :=
  ⟨(C4_scenario_counts okWorld (fun _ => ⟨le_refl 0, by norm_num [okWorld, baseWorld]⟩)
      rfl rfl (fun _ _ => ⟨_, rfl⟩)).1,
   (C4_scenario_counts okWorld (fun _ => ⟨le_refl 0, by norm_num [okWorld, baseWorld]⟩)
      rfl rfl (fun _ _ => ⟨_, rfl⟩)).2.2.2.2⟩

/-! ### C10 — the prediction cache is shared between the two forecasts -/

/-- **C10.**  The batch orchestrator's cache key is determined only by
the scenario count, so when the yield-forecast transformer runs first
(live, cold cache) and the price-forecast transformer runs `t ≤ TTL`
later, both views are built from the identical underlying
`PredictionResult` sequence, and only the first run triggers any remote
interaction: the second run adds no events and issues no requests. -/
theorem C10_shared_prediction_cache (w : World) (t : ℚ) (hr : RngOk w) (hc : w.cache = [])
    (hl : liveMode w = true) (h0 : 0 ≤ t) (hT : t ≤ w.config.CACHE_TTL) :
    (∀ n, predictionsCacheKey n = "predictions_" ++ toString n)
    ∧ ∃ preds : List PredictionResult,
        preds.length = 30
        ∧ (generateAIYieldForecast w).1 = yieldFromPreds w.today preds
        ∧ (generateAIPriceForecast { (generateAIYieldForecast w).2 with
              now := (generateAIYieldForecast w).2.now + t }).1
            = (priceFromPreds preds { (generateAIYieldForecast w).2 with
                now := (generateAIYieldForecast w).2.now + t }).1
        ∧ (generateAIPriceForecast { (generateAIYieldForecast w).2 with
              now := (generateAIYieldForecast w).2.now + t }).2.events
            = (generateAIYieldForecast w).2.events
        ∧ (generateAIPriceForecast { (generateAIYieldForecast w).2 with
              now := (generateAIYieldForecast w).2.now + t }).2.callIdx
            = (generateAIYieldForecast w).2.callIdx
        ∧ (∃ S : List PredictionInput, S.length = 30
            ∧ (generateAIYieldForecast w).2.events
                = w.events ++ Event.batchCall 30 :: S.map Event.remoteCall) := by
  have hpk : predictionsCacheKey 30 = "predictions_30" := rfl
  rcases hgp : getAIPredictions 30 w with ⟨preds, w'⟩
  obtain ⟨hplen, ⟨k, hk⟩, _⟩ := getAIPredictions_cold 30 w hr (by rw [hc]; rfl)
  rw [hgp] at hplen hk
  have hplen' : preds.length = 30 := hplen
  have hk' : w' = cacheSet (predictionsCacheKey 30) (CacheVal.predictions preds)
      { w with rngIdx := k, callIdx := w.callIdx + 30,
               events := w.events ++ Event.batchCall 30 ::
                 ((buildScenarios 30 w).1.map Event.remoteCall) } := hk
  have hy : generateAIYieldForecast w
      = (yieldFromPreds w'.today preds,
         cacheSet "yield_forecast" (CacheVal.yieldF (yieldFromPreds w'.today preds)) w') := by
    simp [generateAIYieldForecast, cacheGet_nil _ _ hc, hl, hgp]
  have htoday : w'.today = w.today := by rw [hk']; rfl
  have f1 : ({ (generateAIYieldForecast w).2 with
        now := (generateAIYieldForecast w).2.now + t } : World).cache
      = [("yield_forecast", ⟨CacheVal.yieldF (yieldFromPreds w'.today preds), w'.now⟩),
         ("predictions_30", ⟨CacheVal.predictions preds, w.now⟩)] := by
    rw [hy]
    show (cacheSet "yield_forecast" (CacheVal.yieldF (yieldFromPreds w'.today preds)) w').cache = _
    rw [show (cacheSet "yield_forecast" (CacheVal.yieldF (yieldFromPreds w'.today preds)) w').cache
        = ("yield_forecast", ⟨CacheVal.yieldF (yieldFromPreds w'.today preds), w'.now⟩)
          :: w'.cache.filter (fun e => ¬ (e.1 = "yield_forecast")) from rfl]
    rw [show w'.cache = [("predictions_30", ⟨CacheVal.predictions preds, w.now⟩)] by
      rw [hk']
      show ("predictions_30", (⟨CacheVal.predictions preds, w.now⟩ : CacheEntry))
          :: w.cache.filter (fun e => ¬ (e.1 = predictionsCacheKey 30)) = _
      rw [hc]
      rfl]
    rfl
  have fnow : (generateAIYieldForecast w).2.now = w.now := by
    rw [hy]
    show w'.now = w.now
    rw [hk']
    rfl
  have fcfg : (generateAIYieldForecast w).2.config = w.config := by
    rw [hy]
    show w'.config = w.config
    rw [hk']
    rfl
  have hmissP : cacheGet "price_forecast"
      { (generateAIYieldForecast w).2 with
        now := (generateAIYieldForecast w).2.now + t }
      = (none, { (generateAIYieldForecast w).2 with
          now := (generateAIYieldForecast w).2.now + t }) := by
    apply cacheGet_miss
    rw [f1]
    rfl
  have hlive2 : liveMode { (generateAIYieldForecast w).2 with
      now := (generateAIYieldForecast w).2.now + t } = true := by
    show ((generateAIYieldForecast w).2.config.USE_REAL_API
      && (generateAIYieldForecast w).2.config.API_AVAILABLE) = true
    rw [fcfg]
    exact hl
  have hcg2 : cacheGet (predictionsCacheKey 30)
      { (generateAIYieldForecast w).2 with
        now := (generateAIYieldForecast w).2.now + t }
      = (some (CacheVal.predictions preds),
         { (generateAIYieldForecast w).2 with
           now := (generateAIYieldForecast w).2.now + t }) := by
    have hfind : ({ (generateAIYieldForecast w).2 with
          now := (generateAIYieldForecast w).2.now + t } : World).cache.find?
          (fun e => e.1 == predictionsCacheKey 30)
        = some ("predictions_30", ⟨CacheVal.predictions preds, w.now⟩) := by
      rw [f1, hpk]
      rfl
    simp only [cacheGet, hfind]
    rw [if_neg]
    rw [fnow, fcfg]
    have heq : w.now + t - w.now = t := by ring
    rw [heq]
    simp only [gt_iff_lt, not_lt]
    exact hT
  have hgp2 : getAIPredictions 30
      { (generateAIYieldForecast w).2 with
        now := (generateAIYieldForecast w).2.now + t }
      = (preds, { (generateAIYieldForecast w).2 with
          now := (generateAIYieldForecast w).2.now + t }) := by
    simp [getAIPredictions, hcg2]
  rcases hpf : priceFromPreds preds
      { (generateAIYieldForecast w).2 with
        now := (generateAIYieldForecast w).2.now + t } with ⟨rows, wp⟩
  have hwp : wp = { ({ (generateAIYieldForecast w).2 with
        now := (generateAIYieldForecast w).2.now + t } : World) with
          rngIdx := ((priceFromPreds preds { (generateAIYieldForecast w).2 with
            now := (generateAIYieldForecast w).2.now + t }).2).rngIdx } := by
    have h := congrArg Prod.snd hpf
    obtain ⟨k₂, hk₂⟩ := stMap_rng_world
      (priceRowFromPred ({ (generateAIYieldForecast w).2 with
        now := (generateAIYieldForecast w).2.now + t } : World).today)
      (fun a v => ⟨v.rngIdx + 1, by simp [priceRowFromPred, nextRand]⟩) preds.enum
      { (generateAIYieldForecast w).2 with
        now := (generateAIYieldForecast w).2.now + t }
    rw [show (priceFromPreds preds { (generateAIYieldForecast w).2 with
        now := (generateAIYieldForecast w).2.now + t }).2
        = (stMap (priceRowFromPred ({ (generateAIYieldForecast w).2 with
            now := (generateAIYieldForecast w).2.now + t } : World).today) preds.enum
          { (generateAIYieldForecast w).2 with
            now := (generateAIYieldForecast w).2.now + t }).2 from rfl] at h ⊢
    rw [hk₂] at h ⊢
    exact h.symm
  have hprice : generateAIPriceForecast
      { (generateAIYieldForecast w).2 with
        now := (generateAIYieldForecast w).2.now + t }
      = (rows, cacheSet "price_forecast" (CacheVal.priceF rows) wp) := by
    simp [generateAIPriceForecast, hmissP, hlive2, hgp2, hpf]
  refine ⟨fun _ => rfl, preds, hplen', ?_, ?_, ?_, ?_, ?_⟩
  · rw [hy]
    show yieldFromPreds w'.today preds = _
    rw [htoday]
  · rw [hprice, hpf]
  · rw [hprice]
    show wp.events = _
    rw [hwp]
  · rw [hprice]
    show wp.callIdx = _
    rw [hwp]
  · refine ⟨(buildScenarios 30 w).1, buildScenarios_length 30 w, ?_⟩
    rw [hy]
    show w'.events = _
    rw [hk']
    rfl

/-- **C10 witness.**  The shared-sequence statement at the base world
with two time units between the yield and price runs. -/
theorem C10_shared_prediction_cache_witness :
    ∃ preds : List PredictionResult,
      preds.length = 30
      ∧ (generateAIYieldForecast baseWorld).1 = yieldFromPreds baseWorld.today preds
      ∧ (generateAIPriceForecast { (generateAIYieldForecast baseWorld).2 with
            now := (generateAIYieldForecast baseWorld).2.now + 2 }).1
          = (priceFromPreds preds { (generateAIYieldForecast baseWorld).2 with
              now := (generateAIYieldForecast baseWorld).2.now + 2 }).1
      ∧ (generateAIPriceForecast { (generateAIYieldForecast baseWorld).2 with
            now := (generateAIYieldForecast baseWorld).2.now + 2 }).2.events
          = (generateAIYieldForecast baseWorld).2.events
      ∧ (generateAIPriceForecast { (generateAIYieldForecast baseWorld).2 with
            now := (generateAIYieldForecast baseWorld).2.now + 2 }).2.callIdx
          = (generateAIYieldForecast baseWorld).2.callIdx
      ∧ (∃ S : List PredictionInput, S.length = 30
          ∧ (generateAIYieldForecast baseWorld).2.events
              = baseWorld.events ++ Event.batchCall 30 :: S.map Event.remoteCall) :=
  (C10_shared_prediction_cache baseWorld 2
      (fun _ => ⟨le_refl 0, by norm_num [baseWorld]⟩) rfl rfl (by norm_num)
      (by norm_num [baseWorld])).2

/-! ### C1 — refresh when the remote client rejects on every call -/

/-- The remote client rejects every request. -/
def AlwaysFails (w : World) : Prop :=
  ∀ n i, ∃ e, w.client n i = Except.error e

/-- A well-behaved random stream is a property of the stream alone. -/
theorem RngOk_of_stream (w v : World) (h : v.rngStream = w.rngStream) (hr : RngOk w) :
    RngOk v := by
  intro n
  rw [h]
  exact hr n

/-- Total failure is a property of the client alone. -/
theorem AlwaysFails_of_client (w v : World) (h : v.client = w.client)
    (hf : AlwaysFails w) : AlwaysFails v := by
  intro n i
  rw [h]
  exact hf n i

/-- Live mode is a property of the configuration alone. -/
theorem liveMode_of_config (w v : World) (h : v.config = w.config) :
    liveMode v = liveMode w := by
  unfold liveMode
  rw [h]

/-- Under a client that rejects every request, every result of an
uncached batch fetch is a bounded fallback. -/
theorem getAIPredictions_fallback (count : ℕ) (w : World) (hr : RngOk w)
    (hcold : w.cache.find? (fun e => e.1 == predictionsCacheKey count) = none)
    (hfail : AlwaysFails w) :
    ∀ p ∈ (getAIPredictions count w).1, FallbackOk p := by
  intro p hp
  obtain ⟨i, hi⟩ := List.mem_iff_get?.1 hp
  have hilt : i < count := by
    have hlen := (getAIPredictions_cold count w hr hcold).1
    obtain ⟨hlt, _⟩ := List.get?_eq_some.1 hi
    rw [hlen] at hlt
    exact hlt
  obtain ⟨r, hrget, _, herr⟩ := (getAIPredictions_cold count w hr hcold).2.2 i hilt
  obtain ⟨e, he⟩ := hfail (w.callIdx + i) (nthScenario w i)
  have hrp : r = p := by
    rw [hi] at hrget
    exact (Option.some.injEq .. ▸ hrget).symm
  exact hrp ▸ herr e he

/-- The KPI computation succeeds on any non-empty prediction list. -/
theorem kpiFromPreds_isSome (l : List PredictionResult) (h : l ≠ []) :
    (kpiFromPreds l).isSome := by
  obtain ⟨x, hx⟩ := Option.isSome_iff_exists.1
    (by rw [List.getLast?_isSome]; exact h)
  rw [kpiFromPreds, hx]
  rfl
/-- **C1 (amended).**  When the Remote Prediction Client rejects on
every call during a live-mode refresh cycle, `refresh()` still resolves
(no transformer body can throw) and `isLoading` is `false` afterwards —
but `lastError` is `null`, not non-null: every per-request failure is
absorbed into a randomized fallback `PredictionResult` inside the batch
fetcher, so no rejection ever reaches the store's `catch`.  No view can
equal a previously cached value, because the refresh begins with a
global `clear()` and the five concurrent transformer bodies cannot
observe one another's cache writes; and except for the optimization
scenarios no view is the static fallback either: the yield forecast is
built from its own fresh 30-element list of bounded fallback
predictions, the price forecast from a second, independent 30-element
fallback list (both branches miss the cleared cache and fetch
separately), the allocation view from a single bounded fallback
prediction, and the KPI summary from a 5-element fallback list; only the
optimization-scenarios view — whose direct remote call rejects and
aborts to its `catch` — equals the static fallback.  The statement holds
for every event-loop schedule, i.e. every choice of the projection maps
`f` and `g`. -/
theorem C1_refresh_total_failure (s : StoreState) (w : World) (f g : Fin 5 → ℕ → ℕ)
    (hr : RngOk w) (hfail : AlwaysFails w) (hl : liveMode w = true) :
    (refreshData s w f g).isLoading = false
    ∧ (refreshData s w f g).error = none
    ∧ (refreshData s w f g).lastUpdated = some w.now
    ∧ (refreshData s w f g).scenarios = getOptimizationScenarios
    ∧ (∃ preds : List PredictionResult, preds.length = 30
        ∧ (∀ p ∈ preds, FallbackOk p)
        ∧ (refreshData s w f g).yieldForecast = yieldFromPreds w.today preds)
    ∧ (∃ predsP : List PredictionResult, ∃ wp : World, predsP.length = 30
        ∧ (∀ p ∈ predsP, FallbackOk p)
        ∧ (refreshData s w f g).priceForecast = (priceFromPreds predsP wp).1)
    ∧ (∃ p : PredictionResult, FallbackOk p
        ∧ (refreshData s w f g).allocationData = allocationFromPrediction p)
    ∧ (∃ preds5 : List PredictionResult, preds5.length = 5
        ∧ (∀ p ∈ preds5, FallbackOk p)
        ∧ (refreshData s w f g).kpiSummary = kpiFromPreds preds5) := by
  refine ⟨rfl, rfl, rfl, ?_, ?_, ?_, ?_, ?_⟩
  -- Optimization branch: the first direct remote call rejects, so the
  -- body aborts to its catch and returns the static mock scenarios.
  · show (getAIOptimizationScenarios (taskWorld (cacheClear w) (f 4) (g 4))).1
        = getOptimizationScenarios
    have hf4 : AlwaysFails (taskWorld (cacheClear w) (f 4) (g 4)) :=
      fun n i => hfail (g 4 n) i
    have hl4 : liveMode (taskWorld (cacheClear w) (f 4) (g 4)) = true := hl
    have hmiss : cacheGet "optimization_scenarios" (taskWorld (cacheClear w) (f 4) (g 4))
        = (none, taskWorld (cacheClear w) (f 4) (g 4)) :=
      cacheGet_nil "optimization_scenarios" (taskWorld (cacheClear w) (f 4) (g 4)) rfl
    rcases h1 : createInputScenario maxRevInput 0 (taskWorld (cacheClear w) (f 4) (g 4))
      with ⟨in1, wA⟩
    have hwA : wA = { taskWorld (cacheClear w) (f 4) (g 4) with
        rngIdx := (taskWorld (cacheClear w) (f 4) (g 4)).rngIdx + 4 } := by
      have h := congrArg Prod.snd h1
      rw [createInputScenario_world] at h
      exact h.symm
    obtain ⟨e, he⟩ := hf4 wA.callIdx in1
    rcases hp1 : getPrediction in1 wA with ⟨res1, wB1⟩
    have hres1 : res1 = Except.error e := by
      have h : wA.client wA.callIdx in1 = res1 := congrArg Prod.fst hp1
      rw [← h, show wA.client = (taskWorld (cacheClear w) (f 4) (g 4)).client by rw [hwA]]
      exact he
    subst hres1
    simp [getAIOptimizationScenarios, hmiss, hl4, h1, hp1]
  -- Yield branch: a cold 30-scenario batch fetch of fallbacks.
  · have hr0 : RngOk (taskWorld (cacheClear w) (f 0) (g 0)) := fun n => hr (f 0 n)
    have hf0 : AlwaysFails (taskWorld (cacheClear w) (f 0) (g 0)) :=
      fun n i => hfail (g 0 n) i
    have hl0 : liveMode (taskWorld (cacheClear w) (f 0) (g 0)) = true := hl
    rcases hgp : getAIPredictions 30 (taskWorld (cacheClear w) (f 0) (g 0)) with ⟨preds, wY⟩
    obtain ⟨hplen, ⟨k1, hk1⟩, _⟩ :=
      getAIPredictions_cold 30 (taskWorld (cacheClear w) (f 0) (g 0)) hr0 rfl
    rw [hgp] at hplen hk1
    have hplen' : preds.length = 30 := hplen
    have hfall : ∀ p ∈ preds, FallbackOk p := by
      have h := getAIPredictions_fallback 30 (taskWorld (cacheClear w) (f 0) (g 0)) hr0 rfl hf0
      rw [hgp] at h
      exact h
    have hk1' : wY = cacheSet (predictionsCacheKey 30) (CacheVal.predictions preds)
        { taskWorld (cacheClear w) (f 0) (g 0) with
            rngIdx := k1,
            callIdx := (taskWorld (cacheClear w) (f 0) (g 0)).callIdx + 30,
            events := (taskWorld (cacheClear w) (f 0) (g 0)).events ++ Event.batchCall 30 :: ((buildScenarios 30 (taskWorld (cacheClear w) (f 0) (g 0))).1.map Event.remoteCall) } := hk1
    have htodayY : wY.today = w.today := by rw [hk1']; rfl
    refine ⟨preds, hplen', hfall, ?_⟩
    show (generateAIYieldForecast (taskWorld (cacheClear w) (f 0) (g 0))).1
        = yieldFromPreds w.today preds
    have hrun : (generateAIYieldForecast (taskWorld (cacheClear w) (f 0) (g 0))).1
        = yieldFromPreds wY.today preds := by
      simp [generateAIYieldForecast,
        cacheGet_nil "yield_forecast" (taskWorld (cacheClear w) (f 0) (g 0)) rfl, hl0, hgp]
    rw [hrun, htodayY]
  -- Price branch: its own, independent cold 30-scenario batch fetch.
  · have hr1 : RngOk (taskWorld (cacheClear w) (f 1) (g 1)) := fun n => hr (f 1 n)
    have hf1 : AlwaysFails (taskWorld (cacheClear w) (f 1) (g 1)) :=
      fun n i => hfail (g 1 n) i
    have hl1 : liveMode (taskWorld (cacheClear w) (f 1) (g 1)) = true := hl
    rcases hgp : getAIPredictions 30 (taskWorld (cacheClear w) (f 1) (g 1)) with ⟨predsP, wP⟩
    obtain ⟨hplen, _, _⟩ :=
      getAIPredictions_cold 30 (taskWorld (cacheClear w) (f 1) (g 1)) hr1 rfl
    rw [hgp] at hplen
    have hplen' : predsP.length = 30 := hplen
    have hfall : ∀ p ∈ predsP, FallbackOk p := by
      have h := getAIPredictions_fallback 30 (taskWorld (cacheClear w) (f 1) (g 1)) hr1 rfl hf1
      rw [hgp] at h
      exact h
    rcases hpf : priceFromPreds predsP wP with ⟨pd0, WP2⟩
    refine ⟨predsP, wP, hplen', hfall, ?_⟩
    show (generateAIPriceForecast (taskWorld (cacheClear w) (f 1) (g 1))).1
        = (priceFromPreds predsP wP).1
    have hrun : (generateAIPriceForecast (taskWorld (cacheClear w) (f 1) (g 1))).1 = pd0 := by
      simp [generateAIPriceForecast,
        cacheGet_nil "price_forecast" (taskWorld (cacheClear w) (f 1) (g 1)) rfl, hl1, hgp, hpf]
    rw [hrun, hpf]
  -- Allocation branch: a cold single-scenario fetch of one fallback.
  · have hr2 : RngOk (taskWorld (cacheClear w) (f 2) (g 2)) := fun n => hr (f 2 n)
    have hf2 : AlwaysFails (taskWorld (cacheClear w) (f 2) (g 2)) :=
      fun n i => hfail (g 2 n) i
    have hl2 : liveMode (taskWorld (cacheClear w) (f 2) (g 2)) = true := hl
    rcases hgp : getAIPredictions 1 (taskWorld (cacheClear w) (f 2) (g 2)) with ⟨preds1, wA⟩
    obtain ⟨hplen, _, _⟩ :=
      getAIPredictions_cold 1 (taskWorld (cacheClear w) (f 2) (g 2)) hr2 rfl
    rw [hgp] at hplen
    have hplen' : preds1.length = 1 := hplen
    have hfall : ∀ p ∈ preds1, FallbackOk p := by
      have h := getAIPredictions_fallback 1 (taskWorld (cacheClear w) (f 2) (g 2)) hr2 rfl hf2
      rw [hgp] at h
      exact h
    match preds1, hplen', hfall, hgp with
    | [p1], _, hfall, hgp =>
    refine ⟨p1, hfall p1 (by simp), ?_⟩
    show (getAIAllocationData (taskWorld (cacheClear w) (f 2) (g 2))).1
        = allocationFromPrediction p1
    simp [getAIAllocationData,
      cacheGet_nil "allocation_data" (taskWorld (cacheClear w) (f 2) (g 2)) rfl, hl2, hgp]
  -- KPI branch: a cold five-scenario fetch of fallbacks.
  · have hr3 : RngOk (taskWorld (cacheClear w) (f 3) (g 3)) := fun n => hr (f 3 n)
    have hf3 : AlwaysFails (taskWorld (cacheClear w) (f 3) (g 3)) :=
      fun n i => hfail (g 3 n) i
    have hl3 : liveMode (taskWorld (cacheClear w) (f 3) (g 3)) = true := hl
    rcases hgp : getAIPredictions 5 (taskWorld (cacheClear w) (f 3) (g 3)) with ⟨preds5, wK⟩
    obtain ⟨hplen, _, _⟩ :=
      getAIPredictions_cold 5 (taskWorld (cacheClear w) (f 3) (g 3)) hr3 rfl
    rw [hgp] at hplen
    have hplen' : preds5.length = 5 := hplen
    have hfall : ∀ p ∈ preds5, FallbackOk p := by
      have h := getAIPredictions_fallback 5 (taskWorld (cacheClear w) (f 3) (g 3)) hr3 rfl hf3
      rw [hgp] at h
      exact h
    obtain ⟨s0, hs0⟩ := Option.isSome_iff_exists.1
      (kpiFromPreds_isSome preds5 (by intro hnil; rw [hnil] at hplen'; simp at hplen'))
    refine ⟨preds5, hplen', hfall, ?_⟩
    show some (getAIKPISummary (taskWorld (cacheClear w) (f 3) (g 3))).1 = kpiFromPreds preds5
    have hrun : (getAIKPISummary (taskWorld (cacheClear w) (f 3) (g 3))).1 = s0 := by
      simp [getAIKPISummary,
        cacheGet_nil "kpi_summary" (taskWorld (cacheClear w) (f 3) (g 3)) rfl, hl3, hgp, hs0]
    rw [hrun, hs0]

set_option maxHeartbeats 1000000 in
/-- **C1, counterexample to the claim as written.**  Under the identity
schedule in a live-mode world whose remote client rejects every call, a
refresh ends with `lastError = null`, falsifying the claim's "lastError
is non-null" (per-request rejections are swallowed by the batch
fetcher's randomized fallback, so no transformer throws); and the
published yield view equals neither a previously cached value (the cache
was just cleared, and no branch observes another's writes) nor the
static fallback generator's output, falsifying the claim's "previously
cached value or static fallback" disjunction as well. -/
theorem C1_refresh_total_failure_cex :
    (refreshData initialStoreState baseWorld (fun _ => id) (fun _ => id)).error = none
    ∧ (refreshData initialStoreState baseWorld (fun _ => id) (fun _ => id)).yieldForecast
        ≠ (generateYieldForecast baseWorld).1 := by
  constructor
  · rfl
  · decide

/-- Witness: the amended C1 instantiated in the concrete always-failing
live world, under the identity schedule. -/
theorem C1_refresh_total_failure_witness :
    (refreshData initialStoreState baseWorld (fun _ => id) (fun _ => id)).isLoading = false
    ∧ (refreshData initialStoreState baseWorld (fun _ => id) (fun _ => id)).error = none
    ∧ (refreshData initialStoreState baseWorld (fun _ => id) (fun _ => id)).scenarios
        = getOptimizationScenarios := by
  have h := C1_refresh_total_failure initialStoreState baseWorld (fun _ => id) (fun _ => id)
    (fun n => ⟨le_refl 0, (by decide : (0 : ℚ) < 1)⟩) (fun n i => ⟨"down", rfl⟩) rfl
  exact ⟨h.1, h.2.1, h.2.2.2.1⟩
end Verda
